import Mathlib

/-!
The IFD handler ifdnfc, src/ifd-nfc.c.

A shallow embedding of the driver in `src/src/ifd-nfc.c`.

* C structures are Lean structures with the fields of the source.
* Byte arrays are `List Nat`; a pointer into a request buffer is a function from
  the index to the byte found there.
* Every call into libnfc, libc (`time`, `malloc`) or `atr.c` (`get_atr`) is a
  field of `nfc_env`: the outcome of that call, as a function of the arguments the
  driver passes.  One entrypoint uses the result of each of these calls at most once
  (`time` apart, whose calls are numbered), so one `nfc_env` describes everything the
  outside world answers during one entrypoint.
* The constants of `ifd-nfc.h` are the fields of `ifd_nfc_h`, parameters of the model.
* `DWORD` is the 64-bit `unsigned long` of pcsc-lite, `int` has 32 bits.
* An entrypoint returns `none` where the model cannot tell what the C code does next: it
  indexes the device table outside its 10 entries, or dereferences NULL.
* `ifdnfc_nfc_open` allocates `strlen(connstring)` bytes and `strcpy` writes
  `strlen(connstring) + 1`: the terminating NUL lands one byte after the block.  The
  model records the size of the block in `ifd_connstring_size`, so that the overrun is
  visible in the state (`connstring_in_block` fails after every copy), and goes on with
  the string as `strcpy` left it, that is as long as the byte after the block is left
  alone.
-/

namespace IfdNfc

/-! ## Constants of pcsc-lite (ifdhandler.h, pcsclite.h) and libnfc -/

/-- RESPONSECODE values of pcsc-lite's ifdhandler.h. -/
def IFD_SUCCESS : Nat := 0
def IFD_ERROR_TAG : Nat := 600
def IFD_ERROR_VALUE_READ_ONLY : Nat := 602
def IFD_ERROR_NOT_SUPPORTED : Nat := 606
def IFD_PROTOCOL_NOT_SUPPORTED : Nat := 607
def IFD_ERROR_POWER_ACTION : Nat := 608
def IFD_COMMUNICATION_ERROR : Nat := 612
def IFD_NOT_SUPPORTED : Nat := 614
def IFD_ICC_NOT_PRESENT : Nat := 616
def IFD_ERROR_INSUFFICIENT_BUFFER : Nat := 618

/-- Power actions of pcsc-lite's ifdhandler.h. -/
def IFD_POWER_UP : Nat := 500
def IFD_POWER_DOWN : Nat := 501
def IFD_RESET : Nat := 502

/-- The size of an ATR buffer, pcsclite.h. -/
def MAX_ATR_SIZE : Nat := 33

/-- The size of a libnfc connection string, nfc-types.h. -/
def NFC_BUFSIZE_CONNSTRING : Nat := 1024

def IFDNFC_MAX_DEVICES : Nat := 10

/-- The constants and structure sizes of ifd-nfc.h, a header of the repository that is
not among the sources: they are parameters of the model.  `sizeof_ifd_device` is the
size in bytes of `struct ifd_device` on the platform. -/
structure ifd_nfc_h where
  IFDNFC_CTRL_ACTIVE : Nat
  IFDNFC_SET_ACTIVE : Int
  IFDNFC_SET_INACTIVE : Int
  IFDNFC_GET_STATUS : Int
  IFDNFC_SET_ACTIVE_SE : Int
  IFD_NFC_OPEN_RETRY_INTERVAL : Int
  sizeof_IFDNFC_CONTROL_REQ : Nat
  sizeof_IFDNFC_CONTROL_RESP : Nat
  sizeof_ifd_device : Nat

/-! ## libnfc types -/

/-- The enumeration of libnfc; `other n` is a value `n` that is none of the eight
enumerators the driver names (0, in a zeroed structure). -/
inductive nfc_modulation_type where
  | NMT_ISO14443A
  | NMT_JEWEL
  | NMT_ISO14443B
  | NMT_ISO14443BI
  | NMT_ISO14443B2SR
  | NMT_ISO14443B2CT
  | NMT_FELICA
  | NMT_DEP
  | other (n : Nat)
  deriving DecidableEq, Repr

inductive nfc_baud_rate where
  | NBR_UNDEFINED
  | NBR_106
  | NBR_212
  | NBR_424
  | NBR_847
  deriving DecidableEq, Repr

inductive nfc_property where
  | NP_INFINITE_SELECT
  deriving DecidableEq, Repr

structure nfc_modulation where
  nmt : nfc_modulation_type
  nbr : nfc_baud_rate
  deriving DecidableEq, Repr

/-- The 14443A view of a target: `abtUid` is a 10-byte array of which `szUidLen`
bytes are the UID, `abtAts` a 254-byte array of which `szAtsLen` bytes are the ATS. -/
structure nfc_iso14443a_info where
  abtAtqa : List Nat
  btSak : Nat
  szUidLen : Nat
  abtUid : List Nat
  szAtsLen : Nat
  abtAts : List Nat
  deriving DecidableEq, Repr

structure nfc_iso14443b_info where
  abtPupi : List Nat
  abtApplicationData : List Nat
  abtProtocolInfo : List Nat
  ui8CardIdentifier : Nat
  deriving DecidableEq, Repr

/-- The union `nfc_target_info`; the two members the driver reads are kept as two
fields (the overlap of their bytes in memory is not modelled). -/
structure nfc_target_info where
  nai : nfc_iso14443a_info
  nbi : nfc_iso14443b_info
  deriving DecidableEq, Repr

structure nfc_target where
  nti : nfc_target_info
  nm : nfc_modulation
  deriving DecidableEq, Repr

/-- The UID length stored in a target description lies within the 10-byte array. -/
def nfc_iso14443a_info.uid_wf (a : nfc_iso14443a_info) : Prop :=
  a.abtUid.length = 10 ∧ a.szUidLen ≤ 10

/-- The ATS length stored in a target description lies within the 254-byte array. -/
def nfc_iso14443a_info.ats_wf (a : nfc_iso14443a_info) : Prop :=
  a.abtAts.length = 254 ∧ a.szAtsLen ≤ 254

instance (a : nfc_iso14443a_info) : Decidable a.uid_wf :=
  inferInstanceAs (Decidable (_ ∧ _))

instance (a : nfc_iso14443a_info) : Decidable a.ats_wf :=
  inferInstanceAs (Decidable (_ ∧ _))

/-! ## The driver's structures -/

structure ifd_slot where
  present : Bool
  initiated : Bool
  target : nfc_target
  atr : List Nat
  atr_len : Nat
  deriving DecidableEq, Repr

/-- The `struct ifd_device`; `device` is the libnfc handle (`none` is NULL),
`ifd_connstring` the owned string (`none` is NULL).  `ifd_connstring_size` is not a field
of the C structure: it is the size in bytes of the heap block `ifd_connstring` points
to, as `malloc` or `realloc` was asked for it (0 for NULL). -/
structure ifd_device where
  device : Option Nat
  slot : ifd_slot
  connected : Bool
  secure_element_as_card : Bool
  Lun : Int
  open_attempted_at : Int
  ifd_connstring : Option (List Char)
  mode : Int
  ifd_connstring_size : Nat
  deriving DecidableEq, Repr

/-- The string `ifd_connstring` and its terminating NUL lie within the block allocated
for it. -/
def connstring_in_block (d : ifd_device) : Prop :=
  match d.ifd_connstring with
  | some s => s.length + 1 ≤ d.ifd_connstring_size
  | none => True

/-- Modelled from the spec: the two keys the driver passes to the ATR-construction
function, "ISO14443A/106" and "ISO14443B/106" (atr.h is not among the sources). -/
inductive atr_kind where
  | ATR_ISO14443A_106
  | ATR_ISO14443B_106
  deriving DecidableEq, Repr

/-- The answers of the world outside ifd-nfc.c during one entrypoint call.

* `nfc_init`: the context `nfc_init` stores (`none` is NULL).
* `malloc`: whether the `malloc`/`realloc` of the connection string succeeds.
* `time k`: what `time(NULL)` returns at its call number `k` (from 0) of the entrypoint.
* `nfc_initiator_select_passive_target`, `nfc_initiator_list_passive_targets`:
  the result and the content of the target the call was given to fill, after the call.
* `nfc_initiator_transceive_bytes`: the result and the bytes stored in the receive buffer.
* `get_atr`: given the kind, the input bytes and their number, the ATR buffer and the
  length passed in: the result, the ATR buffer and the length afterwards. -/
structure nfc_env where
  nfc_init : Option Nat
  malloc : Bool
  time : Nat → Int
  nfc_open : Option Nat → List Char → Option Nat
  nfc_initiator_init : Option Nat → Int
  nfc_initiator_init_secure_element : Option Nat → Int
  nfc_device_set_property_bool : Option Nat → nfc_property → Bool → Int
  nfc_initiator_select_passive_target :
    Option Nat → nfc_modulation → Option (List Nat) → Nat → Int × nfc_target
  nfc_initiator_list_passive_targets : Option Nat → nfc_modulation → Nat → Int × nfc_target
  nfc_initiator_deselect_target : Option Nat → Int
  nfc_initiator_target_is_present : Option Nat → nfc_target → Int
  nfc_initiator_transceive_bytes : Option Nat → List Nat → Nat → Int → Int × List Nat
  get_atr : atr_kind → List Nat → Nat → List Nat → Nat → Bool × List Nat × Nat

/-! ## libc helpers -/

/-- The bytes `memcpy(dst, src, n)` stores at the start of `dst` (for `n` within `src`). -/
def memcpy (src : List Nat) (n : Nat) : List Nat :=
  src.take n

/-- The result of `memcmp(a, b, n)`: the difference of the first two bytes that
differ among the first `n`, 0 when there is none. -/
def memcmp : List Nat → List Nat → Nat → Int
  | _, _, 0 => 0
  | x :: a, y :: b, n + 1 => if x = y then memcmp a b n else (x : Int) - (y : Int)
  | [], [], _ + 1 => 0
  | [], _ :: _, _ + 1 => -1
  | _ :: _, [], _ + 1 => 1

/-- Whether `strchr(s, c) != NULL`. -/
def strchr (s : List Char) (c : Char) : Bool :=
  s.contains c

/-! ## The static functions of ifd-nfc.c -/

def supported_modulations : List nfc_modulation :=
  [{ nmt := .NMT_ISO14443A, nbr := .NBR_106 }]

def ifdnfc_disconnect (K : ifd_nfc_h) (env : nfc_env) (ifdnfc : ifd_device) : ifd_device :=
  let ifdnfc :=
    if ifdnfc.connected then
      let ifdnfc :=
        if ifdnfc.slot.present then
          if env.nfc_initiator_deselect_target ifdnfc.device < 0 then
            ifdnfc
          else
            { ifdnfc with slot := { ifdnfc.slot with present := false } }
        else ifdnfc
      -- nfc_close(ifdnfc->device)
      { ifdnfc with connected := false, device := none }
    else ifdnfc
  { ifdnfc with mode := K.IFDNFC_SET_INACTIVE }

def ifdnfc_target_to_atr (env : nfc_env) (ifdnfc : ifd_device) : Bool × ifd_device :=
  let ifdnfc := { ifdnfc with slot := { ifdnfc.slot with atr_len := MAX_ATR_SIZE } }
  match ifdnfc.slot.target.nm.nmt with
  | .NMT_ISO14443A =>
    let r := env.get_atr .ATR_ISO14443A_106 ifdnfc.slot.target.nti.nai.abtAts
      ifdnfc.slot.target.nti.nai.szAtsLen ifdnfc.slot.atr ifdnfc.slot.atr_len
    let ifdnfc := { ifdnfc with slot := { ifdnfc.slot with atr := r.2.1, atr_len := r.2.2 } }
    if !r.1 then
      (false, { ifdnfc with slot := { ifdnfc.slot with atr_len := 0 } })
    else
      (true, ifdnfc)
  | .NMT_ISO14443B =>
    let atqb : List Nat :=
      [0x50] ++ memcpy ifdnfc.slot.target.nti.nbi.abtPupi 4
        ++ memcpy ifdnfc.slot.target.nti.nbi.abtApplicationData 4
        ++ memcpy ifdnfc.slot.target.nti.nbi.abtProtocolInfo 3
    let r := env.get_atr .ATR_ISO14443B_106 atqb 12 ifdnfc.slot.atr ifdnfc.slot.atr_len
    let ifdnfc := { ifdnfc with slot := { ifdnfc.slot with atr := r.2.1, atr_len := r.2.2 } }
    let ifdnfc :=
      if !r.1 then { ifdnfc with slot := { ifdnfc.slot with atr_len := 0 } } else ifdnfc
    (false, ifdnfc)
  | .NMT_ISO14443BI | .NMT_ISO14443B2CT | .NMT_ISO14443B2SR | .NMT_JEWEL | .NMT_FELICA
  | .NMT_DEP =>
    (true, { ifdnfc with slot := { ifdnfc.slot with atr_len := 0 } })
  | .other _ => (true, ifdnfc)

def ifdnfc_reselect_target (env : nfc_env) (ifdnfc : ifd_device) (warm : Bool) :
    Bool × ifd_device :=
  match ifdnfc.slot.target.nm.nmt with
  | .NMT_ISO14443A =>
    if env.nfc_device_set_property_bool ifdnfc.device .NP_INFINITE_SELECT false < 0 then
      (false, { ifdnfc with slot := { ifdnfc.slot with present := false } })
    else
      let r := env.nfc_initiator_select_passive_target ifdnfc.device ifdnfc.slot.target.nm
        (if warm then some ifdnfc.slot.target.nti.nai.abtUid else none)
        (if warm then ifdnfc.slot.target.nti.nai.szUidLen else 0)
      let nt := r.2
      if r.1 < 1 then
        (false, { ifdnfc with slot := { ifdnfc.slot with present := false } })
      else
        if !warm then
          if ifdnfc.slot.target.nti.nai.szAtsLen = nt.nti.nai.szAtsLen
              ∧ 0 = memcmp ifdnfc.slot.target.nti.nai.abtAts nt.nti.nai.abtAts
                    nt.nti.nai.szAtsLen then
            (true, ifdnfc)
          else
            (false, ifdnfc)
        else
          (true, ifdnfc)
  | _ => (false, ifdnfc)

def ifdnfc_se_is_available (env : nfc_env) (ifdnfc : ifd_device) : Bool × ifd_device :=
  if !ifdnfc.connected then
    (false, ifdnfc)
  else if ifdnfc.slot.present && ifdnfc.slot.initiated then
    (true, ifdnfc)
  else if env.nfc_initiator_init_secure_element ifdnfc.device < 0 then
    (false, { ifdnfc with slot := { ifdnfc.slot with present := false } })
  else if env.nfc_device_set_property_bool ifdnfc.device .NP_INFINITE_SELECT false < 0 then
    (false, { ifdnfc with slot := { ifdnfc.slot with present := false } })
  else
    let nmSAM : nfc_modulation := { nmt := .NMT_ISO14443A, nbr := .NBR_106 }
    let r := env.nfc_initiator_select_passive_target ifdnfc.device nmSAM none 0
    let res := r.1
    let ifdnfc := { ifdnfc with slot := { ifdnfc.slot with target := r.2 } }
    if res < 0 then
      (false, { ifdnfc with slot := { ifdnfc.slot with present := false } })
    else if res = 0 then
      (false, { ifdnfc with slot := { ifdnfc.slot with present := false } })
    else
      let ifdnfc := (ifdnfc_target_to_atr env ifdnfc).2
      (true, { ifdnfc with slot := { ifdnfc.slot with present := true } })

/-- The loop of `ifdnfc_target_is_available` over the modulations still to try. -/
def ifdnfc_target_is_available_loop (env : nfc_env) :
    List nfc_modulation → ifd_device → Bool × ifd_device
  | [], ifdnfc => (false, ifdnfc)
  | nm :: rest, ifdnfc =>
    let r := env.nfc_initiator_list_passive_targets ifdnfc.device nm 1
    let ifdnfc := { ifdnfc with slot := { ifdnfc.slot with target := r.2 } }
    if r.1 = 1 then
      let ifdnfc := (ifdnfc_target_to_atr env ifdnfc).2
      (true, { ifdnfc with slot := { ifdnfc.slot with present := true, initiated := true } })
    else
      ifdnfc_target_is_available_loop env rest ifdnfc

def ifdnfc_target_is_available (env : nfc_env) (ifdnfc : ifd_device) : Bool × ifd_device :=
  if !ifdnfc.connected then
    (false, ifdnfc)
  else if ifdnfc.slot.present then
    if ifdnfc.slot.initiated then
      if env.nfc_initiator_target_is_present ifdnfc.device ifdnfc.slot.target < 0 then
        (false, { ifdnfc with slot := { ifdnfc.slot with present := false } })
      else
        (true, ifdnfc)
    else
      if env.nfc_initiator_init ifdnfc.device < 0 then
        (false, { ifdnfc with slot := { ifdnfc.slot with present := false } })
      else
        let ifdnfc := { ifdnfc with slot := { ifdnfc.slot with initiated := true } }
        let r := ifdnfc_reselect_target env ifdnfc false
        let ifdnfc := r.2
        if !r.1 then
          (false, { ifdnfc with slot := { ifdnfc.slot with present := false } })
        else
          -- the result of nfc_initiator_deselect_target is only logged
          (true, ifdnfc)
  else
    if !ifdnfc.slot.initiated ∧ env.nfc_initiator_init ifdnfc.device < 0 then
      (false, ifdnfc)
    else
      let ifdnfc :=
        if !ifdnfc.slot.initiated then
          { ifdnfc with slot := { ifdnfc.slot with initiated := true } }
        else ifdnfc
      ifdnfc_target_is_available_loop env supported_modulations ifdnfc

/-- The function `ifdnfc_nfc_open`; `k` is the number of calls of `time` the entrypoint
made before.  The block for the copy is asked with the size `strlen(connstring)`, one
byte less than `strcpy` then writes: `ifd_connstring_size` keeps that size. -/
def ifdnfc_nfc_open (env : nfc_env) (k : Nat) (context : Option Nat) (ifdnfc : ifd_device)
    (connstring : Option (List Char)) : Bool × ifd_device :=
  if ifdnfc.device = none then
    let copy : Bool :=
      match connstring with
      | some s => strchr s ':'
      | none => false
    -- malloc(strlen(connstring)) or realloc(.., strlen(connstring)), then strcpy
    let ifdnfc :=
      if copy then
        { ifdnfc with
          ifd_connstring := if env.malloc then connstring else none,
          ifd_connstring_size :=
            if env.malloc then
              match connstring with
              | some s => s.length
              | none => 0
            else 0 }
      else ifdnfc
    if copy ∧ ifdnfc.ifd_connstring = none then
      (false, ifdnfc)
    else
      match ifdnfc.ifd_connstring with
      | some (c :: s) =>
        let ifdnfc := { ifdnfc with open_attempted_at := env.time k }
        let ifdnfc := { ifdnfc with device := env.nfc_open context (c :: s) }
        let ifdnfc := { ifdnfc with connected := if ifdnfc.device ≠ none then true else false }
        (ifdnfc.connected, ifdnfc)
      | _ => (ifdnfc.connected, ifdnfc)
  else
    (ifdnfc.connected, ifdnfc)

/-! ## The device table -/

/-- The static state of ifd-nfc.c.  `memory_after i`, for `i` at least 10, is the `int`
found where the field `Lun` of an entry `i` of `ifd_devices` would lie, after the end
of the table. -/
structure driver where
  context : Option Nat
  ifd_devices : List ifd_device
  ifdnfc_initialized : Bool
  ifd_connstring : List Char
  memory_after : Nat → Int

/-- The conversion of an `int` to `DWORD` (unsigned long, 64 bits). -/
def int_to_DWORD (x : Int) : Nat :=
  (x % 2 ^ 64).toNat

/-- The conversion of a `DWORD` to `int` (32 bits, two's complement). -/
def DWORD_to_int (n : Nat) : Int :=
  if n % 2 ^ 32 < 2 ^ 31 then ((n % 2 ^ 32 : Nat) : Int) else ((n % 2 ^ 32 : Nat) : Int) - 2 ^ 32

/-- The value of `ifd_devices[i].Lun`, inside the table or after it. -/
def Lun_at (st : driver) (i : Nat) : Int :=
  match st.ifd_devices[i]? with
  | some d => d.Lun
  | none => st.memory_after i

/-- The loop of `lun2device_index` from index `i`, with `n` iterations left. -/
def lun2device_index_loop (st : driver) (Lun : Nat) : Nat → Nat → Int
  | 0, _ => -1
  | n + 1, i =>
    if int_to_DWORD (Lun_at st i) = Lun then (i : Int)
    else lun2device_index_loop st Lun n (i + 1)

/-- The bound of the loop is `sizeof(ifd_devices)`, the size of the table in bytes. -/
def lun2device_index (K : ifd_nfc_h) (st : driver) (Lun : Nat) : Int :=
  lun2device_index_loop st Lun (IFDNFC_MAX_DEVICES * K.sizeof_ifd_device) 0

/-! ## sscanf, for the two formats of IFDHCreateChannelByName -/

inductive scan_directive where
  | lit (c : Char)
  | set_not (width : Nat) (stop : Char)
  deriving DecidableEq, Repr

/-- The run of `sscanf` over the directives of a format: the result (the number of
conversions stored, or EOF = -1 when the input ends before the first one) and the
strings stored.  `lit c` matches the character `c`; `set_not w c` is `%w[^c]`. -/
def sscanf : List scan_directive → List Char → List (List Char) → Int × List (List Char)
  | [], _, out => ((out.length : Int), out)
  | .lit c :: fmt, s, out =>
    match s with
    | [] => (if out = [] then -1 else (out.length : Int), out)
    | x :: rest => if x = c then sscanf fmt rest out else ((out.length : Int), out)
  | .set_not w stop :: fmt, s, out =>
    let tok := (s.take w).takeWhile (fun x => x != stop)
    if tok = [] then
      (if s = [] ∧ out = [] then -1 else (out.length : Int), out)
    else
      sscanf fmt (s.drop tok.length) (out ++ [tok])

/-- The format "usb:%4[^:]:%4[^:]:%32[^:]:%32[^:]". -/
def format_usb : List scan_directive :=
  [.lit 'u', .lit 's', .lit 'b', .lit ':', .set_not 4 ':', .lit ':', .set_not 4 ':',
   .lit ':', .set_not 32 ':', .lit ':', .set_not 32 ':']

/-- The format "/dev/bus/usb/%3[^/]/%3[^/]". -/
def format_devpath : List scan_directive :=
  [.lit '/', .lit 'd', .lit 'e', .lit 'v', .lit '/', .lit 'b', .lit 'u', .lit 's', .lit '/',
   .lit 'u', .lit 's', .lit 'b', .lit '/', .set_not 3 '/', .lit '/', .set_not 3 '/']

/-- The three bytes `memcpy(dst, s, 3)` takes from the string `s`: its characters, then
its terminating NUL; a byte after the NUL is shown as NUL too (it lies after the end of
the string that results). -/
def memcpy3 (s : List Char) : List Char :=
  (s ++ [Char.ofNat 0, Char.ofNat 0, Char.ofNat 0]).take 3

/-- The string in the static `ifd_connstring` after
`strcpy(.., "usb:xxx:xxx"); memcpy(.. + 4, dirname, 3); memcpy(.. + 8, filename, 3)`. -/
def usb_connstring (dirname filename : List Char) : List Char :=
  (['u', 's', 'b', ':'] ++ memcpy3 dirname ++ [':'] ++ memcpy3 filename).takeWhile
    (fun x => x != Char.ofNat 0)

/-- The search of a free entry in IFDHCreateChannelByName, from index `i` with `n`
iterations left: the index found, or `none` for the return of the error. -/
def find_free_slot (devs : List ifd_device) : Nat → Nat → Option Nat
  | 0, _ => none
  | n + 1, i =>
    match devs[i]? with
    | some d =>
      if d.Lun = -1 then some i
      else if i = IFDNFC_MAX_DEVICES - 1 then none
      else find_free_slot devs n (i + 1)
    | none => none

/-! ## The entrypoints -/

/-- The table after `ifd_devices[i].Lun = -1` for every entry. -/
def free_all (devs : List ifd_device) : List ifd_device :=
  devs.map (fun d => { d with Lun := -1 })

/-- IFDHCreateChannelByName: the response code and the driver afterwards.  A NULL
`DeviceName` is `none`; the code calls `strlen` on it. -/
def IFDHCreateChannelByName (K : ifd_nfc_h) (env : nfc_env) (st : driver) (Lun : Nat)
    (DeviceName : Option (List Char)) : Option (Nat × driver) :=
  let sel : driver × Option Nat :=
    if !st.ifdnfc_initialized then
      let st := { st with ifd_devices := free_all st.ifd_devices }
      let st := { st with context := env.nfc_init }
      if st.context = none then (st, none)
      else ({ st with ifdnfc_initialized := true }, some 0)
    else
      (st, find_free_slot st.ifd_devices IFDNFC_MAX_DEVICES 0)
  let st := sel.1
  match sel.2 with
  | none => some (IFD_COMMUNICATION_ERROR, st)
  | some device_index =>
    match st.ifd_devices[device_index]?, DeviceName with
    | some ifdnfc, some name =>
      let ifdnfc := { ifdnfc with
        device := none, connected := false, slot := { ifdnfc.slot with present := false },
        open_attempted_at := 0, mode := K.IFDNFC_SET_INACTIVE }
      let res := sscanf format_usb name []
      let r : ifd_device × List Char :=
        if res.1 = 4 then
          let devpath := res.2.getD 3 []
          let res := sscanf format_devpath devpath []
          if res.1 = 2 then
            let ifd_connstring := usb_connstring (res.2.getD 0 []) (res.2.getD 1 [])
            let ifdnfc := (ifdnfc_nfc_open env 0 st.context ifdnfc (some ifd_connstring)).2
            ({ ifdnfc with mode := K.IFDNFC_SET_ACTIVE }, ifd_connstring)
          else (ifdnfc, st.ifd_connstring)
        else if strchr name ':' then
          let ifdnfc := (ifdnfc_nfc_open env 0 st.context ifdnfc (some name)).2
          ({ ifdnfc with mode := K.IFDNFC_SET_ACTIVE }, st.ifd_connstring)
        else (ifdnfc, st.ifd_connstring)
      let ifdnfc := { r.1 with Lun := DWORD_to_int Lun }
      some (IFD_SUCCESS,
        { st with ifd_devices := st.ifd_devices.set device_index ifdnfc, ifd_connstring := r.2 })
    | _, _ => none

/-- IFDHCloseChannel: the response code and the driver afterwards. -/
def IFDHCloseChannel (K : ifd_nfc_h) (env : nfc_env) (st : driver) (Lun : Nat) :
    Option (Nat × driver) :=
  let device_index := lun2device_index K st Lun
  if device_index < 0 then some (IFD_COMMUNICATION_ERROR, st)
  else
    match st.ifd_devices[device_index.toNat]? with
    | none => none
    | some ifdnfc =>
      let ifdnfc := ifdnfc_disconnect K env ifdnfc
      -- free(ifdnfc->ifd_connstring)
      let ifdnfc := { ifdnfc with Lun := -1, ifd_connstring := none, ifd_connstring_size := 0 }
      let st := { st with ifd_devices := st.ifd_devices.set device_index.toNat ifdnfc }
      if (st.ifd_devices.take IFDNFC_MAX_DEVICES).any (fun d => d.Lun != -1) then
        some (IFD_SUCCESS, st)
      else
        -- nfc_exit(context)
        some (IFD_SUCCESS, { st with context := none })

/-- What IFDHPowerICC hands back: the response code, the bytes stored at `Atr` (from
its first byte on) and `*AtrLength` afterwards (`none` for a NULL pointer). -/
structure power_result where
  rc : Nat
  Atr : List Nat
  AtrLength : Option Nat
  deriving DecidableEq, Repr

/-- The part of IFDHPowerICC on the device found, with `*AtrLength = len` on entry. -/
def IFDHPowerICC_device (env : nfc_env) (ifdnfc : ifd_device) (Action : Nat) (len : Nat) :
    power_result × ifd_device :=
  if !ifdnfc.connected then
    ({ rc := IFD_COMMUNICATION_ERROR, Atr := [], AtrLength := some len }, ifdnfc)
  else if Action = IFD_POWER_DOWN then
    ({ rc := IFD_SUCCESS, Atr := [], AtrLength := some 0 }, ifdnfc)
  else if Action = IFD_RESET then
    if ifdnfc.slot.present then
      let ifdnfc := { ifdnfc with slot := { ifdnfc.slot with present := false } }
      if env.nfc_initiator_deselect_target ifdnfc.device < 0 then
        ({ rc := IFD_ERROR_POWER_ACTION, Atr := [], AtrLength := some 0 }, ifdnfc)
      else
        let r := ifdnfc_reselect_target env ifdnfc true
        let ifdnfc := r.2
        if !r.1 then
          ({ rc := IFD_ERROR_POWER_ACTION, Atr := [], AtrLength := some 0 }, ifdnfc)
        else if len < ifdnfc.slot.atr_len then
          ({ rc := IFD_COMMUNICATION_ERROR, Atr := [], AtrLength := some len }, ifdnfc)
        else
          ({ rc := IFD_SUCCESS, Atr := memcpy ifdnfc.slot.atr ifdnfc.slot.atr_len,
             AtrLength := some ifdnfc.slot.atr_len }, ifdnfc)
    else
      -- break, then the return at the end of the function
      ({ rc := IFD_SUCCESS, Atr := [], AtrLength := some len }, ifdnfc)
  else if Action = IFD_POWER_UP then
    let se : Bool × ifd_device :=
      if ifdnfc.secure_element_as_card then ifdnfc_se_is_available env ifdnfc
      else (false, ifdnfc)
    let r : Bool × ifd_device :=
      if se.1 then se else ifdnfc_target_is_available env se.2
    let ifdnfc := r.2
    if r.1 then
      if len < ifdnfc.slot.atr_len then
        ({ rc := IFD_COMMUNICATION_ERROR, Atr := [], AtrLength := some len }, ifdnfc)
      else
        ({ rc := IFD_SUCCESS, Atr := memcpy ifdnfc.slot.atr ifdnfc.slot.atr_len,
           AtrLength := some ifdnfc.slot.atr_len }, ifdnfc)
    else
      ({ rc := IFD_COMMUNICATION_ERROR, Atr := [], AtrLength := some 0 }, ifdnfc)
  else
    ({ rc := IFD_NOT_SUPPORTED, Atr := [], AtrLength := some len }, ifdnfc)

/-- IFDHPowerICC.  `Atr` tells whether the pointer `Atr` is non-NULL; `AtrLength` is
`none` for a NULL pointer and the value pointed to otherwise. -/
def IFDHPowerICC (K : ifd_nfc_h) (env : nfc_env) (st : driver) (Lun : Nat) (Action : Nat)
    (Atr : Bool) (AtrLength : Option Nat) : Option (power_result × driver) :=
  let device_index := lun2device_index K st Lun
  if device_index < 0 then
    some ({ rc := IFD_COMMUNICATION_ERROR, Atr := [], AtrLength := AtrLength }, st)
  else
    match st.ifd_devices[device_index.toNat]? with
    | none => none
    | some ifdnfc =>
      match Atr, AtrLength with
      | true, some len =>
        let r := IFDHPowerICC_device env ifdnfc Action len
        some (r.1, { st with ifd_devices := st.ifd_devices.set device_index.toNat r.2 })
      | _, _ =>
        some ({ rc := IFD_COMMUNICATION_ERROR, Atr := [], AtrLength := AtrLength }, st)

structure SCARD_IO_HEADER where
  Protocol : Nat
  Length : Nat
  deriving DecidableEq, Repr

/-- What IFDHTransmitToICC hands back: the response code, the bytes stored at
`RxBuffer` (from its first byte on, in the order of their indices), `*RxLength` and
`*RecvPci` afterwards (`none` for a NULL pointer). -/
structure transmit_result where
  rc : Nat
  RxBuffer : List Nat
  RxLength : Option Nat
  RecvPci : Option SCARD_IO_HEADER
  deriving DecidableEq, Repr

/-- The `switch (TxBuffer[2])` of the Get Data command: `Data` and `DataLength`, or
`none` where the switch answers "function not supported". -/
def get_data (target : nfc_target) (P1 : Nat) : Option (List Nat × Nat) :=
  if P1 = 0x00 then
    some (target.nti.nai.abtUid, target.nti.nai.szUidLen)
  else if P1 = 0x01 ∧ target.nm.nmt = .NMT_ISO14443A then
    let Data := target.nti.nai.abtAts
    let DataLength := target.nti.nai.szAtsLen
    if DataLength ≠ 0 then
      let idx := 1
      let idx := if Data.getD 0 0 &&& 0x10 ≠ 0 then idx + 1 else idx
      let idx := if Data.getD 0 0 &&& 0x20 ≠ 0 then idx + 1 else idx
      let idx := if Data.getD 0 0 &&& 0x40 ≠ 0 then idx + 1 else idx
      if DataLength > idx then
        some (Data.drop idx, DataLength - idx)
      else
        some (Data, 0)
    else
      some (Data, DataLength)
  else
    none

/-- The loop `for (;RxOff<Le;) RxBuffer[RxOff++] = 0;` with `n` iterations left: `RxOff`
and the bytes stored so far, at the exit. -/
def zero_fill (Le : Nat) : Nat → Nat → List Nat → Nat × List Nat
  | 0, RxOff, RxBuffer => (RxOff, RxBuffer)
  | n + 1, RxOff, RxBuffer =>
    if RxOff < Le then zero_fill Le n (RxOff + 1) (RxBuffer ++ [0]) else (RxOff, RxBuffer)

/-- The Get Data branch of IFDHTransmitToICC (the request starts with FF CA). -/
def IFDHTransmitToICC_get_data (ifdnfc : ifd_device) (TxBuffer : Nat → Nat) (TxLength : Nat)
    (RecvPci : SCARD_IO_HEADER) : transmit_result :=
  let Le := TxBuffer 4
  let RecvPci := { RecvPci with Protocol := 1 }
  if TxLength ≠ 5 then
    { rc := IFD_SUCCESS, RxBuffer := [0x67, 0x00], RxLength := some 2, RecvPci := some RecvPci }
  else
    match get_data ifdnfc.slot.target (TxBuffer 2) with
    | none =>
      { rc := IFD_SUCCESS, RxBuffer := [0x6A, 0x81], RxLength := some 2,
        RecvPci := some RecvPci }
    | some (Data, DataLength) =>
      let Le := if Le = 0 then DataLength else Le
      if Le < DataLength then
        { rc := IFD_SUCCESS, RxBuffer := [0x6C, DataLength % 256], RxLength := some 2,
          RecvPci := some RecvPci }
      else
        let RxOff := DataLength
        let RxBuffer := memcpy Data RxOff
        if Le > RxOff then
          let r := zero_fill Le Le RxOff RxBuffer
          { rc := IFD_SUCCESS, RxBuffer := r.2 ++ [0x62, 0x82], RxLength := some (r.1 + 2),
            RecvPci := some RecvPci }
        else
          { rc := IFD_SUCCESS, RxBuffer := RxBuffer ++ [0x90, 0x00],
            RxLength := some (RxOff + 2), RecvPci := some RecvPci }

/-- IFDHTransmitToICC.  `TxBuffer i` is the byte at `TxBuffer[i]`; `RxLength` and
`RecvPci` are `none` for NULL pointers. -/
def IFDHTransmitToICC (K : ifd_nfc_h) (env : nfc_env) (st : driver) (Lun : Nat)
    (TxBuffer : Nat → Nat) (TxLength : Nat) (RxLength : Option Nat)
    (RecvPci : Option SCARD_IO_HEADER) : Option (transmit_result × driver) :=
  let device_index := lun2device_index K st Lun
  if device_index < 0 then
    some ({ rc := IFD_COMMUNICATION_ERROR, RxBuffer := [], RxLength := RxLength,
            RecvPci := RecvPci }, st)
  else
    match st.ifd_devices[device_index.toNat]? with
    | none => none
    | some ifdnfc =>
      match RxLength, RecvPci with
      | some rl, some pci =>
        if !ifdnfc.connected || !ifdnfc.slot.present then
          some ({ rc := IFD_ICC_NOT_PRESENT, RxBuffer := [], RxLength := some 0,
                  RecvPci := some pci }, st)
        else if TxBuffer 0 = 0xFF ∧ TxBuffer 1 = 0xCA then
          some (IFDHTransmitToICC_get_data ifdnfc TxBuffer TxLength pci, st)
        else
          let r := env.nfc_initiator_transceive_bytes ifdnfc.device
            ((List.range TxLength).map TxBuffer) rl 5000
          if r.1 < 0 then
            some ({ rc := IFD_COMMUNICATION_ERROR, RxBuffer := r.2, RxLength := some 0,
                    RecvPci := some pci }, st)
          else
            some ({ rc := IFD_SUCCESS, RxBuffer := r.2, RxLength := some r.1.toNat,
                    RecvPci := some { pci with Protocol := 1 } }, st)
      | _, _ =>
        some ({ rc := IFD_COMMUNICATION_ERROR, RxBuffer := [], RxLength := RxLength,
                RecvPci := RecvPci }, st)

/-- The last two statements of IFDHICCPresence. -/
def IFDHICCPresence_poll (env : nfc_env) (ifdnfc : ifd_device) : Nat × ifd_device :=
  if ifdnfc.secure_element_as_card then
    (if ifdnfc.slot.present then IFD_SUCCESS else IFD_ICC_NOT_PRESENT, ifdnfc)
  else
    let a := ifdnfc_target_is_available env ifdnfc
    (if a.1 then IFD_SUCCESS else IFD_ICC_NOT_PRESENT, a.2)

/-- The part of IFDHICCPresence on the device found. -/
def IFDHICCPresence_device (K : ifd_nfc_h) (env : nfc_env) (context : Option Nat)
    (ifdnfc : ifd_device) : Nat × ifd_device :=
  if !ifdnfc.connected then
    if ¬ (ifdnfc.mode = K.IFDNFC_SET_ACTIVE ∨ ifdnfc.mode = K.IFDNFC_SET_ACTIVE_SE) then
      (IFD_ICC_NOT_PRESENT, ifdnfc)
    else if env.time 0 - ifdnfc.open_attempted_at < K.IFD_NFC_OPEN_RETRY_INTERVAL then
      (IFD_ICC_NOT_PRESENT, ifdnfc)
    else
      let r := ifdnfc_nfc_open env 1 context ifdnfc ifdnfc.ifd_connstring
      if !r.1 then (IFD_ICC_NOT_PRESENT, r.2)
      else IFDHICCPresence_poll env r.2
  else
    IFDHICCPresence_poll env ifdnfc

/-- IFDHICCPresence: the response code and the driver afterwards. -/
def IFDHICCPresence (K : ifd_nfc_h) (env : nfc_env) (st : driver) (Lun : Nat) :
    Option (Nat × driver) :=
  let device_index := lun2device_index K st Lun
  if device_index < 0 then some (IFD_COMMUNICATION_ERROR, st)
  else
    match st.ifd_devices[device_index.toNat]? with
    | none => none
    | some ifdnfc =>
      let r := IFDHICCPresence_device K env st.context ifdnfc
      some (r.1, { st with ifd_devices := st.ifd_devices.set device_index.toNat r.2 })

structure IFDNFC_CONTROL_REQ where
  command : Int
  connstring : List Char
  deriving DecidableEq, Repr

structure IFDNFC_CONTROL_RESP where
  mode : Int
  connstring : List Char
  connected : Bool
  se_avail : Bool
  deriving DecidableEq, Repr

/-- What IFDHControl hands back: the response code, the response structure stored at
`RxBuffer` and the value stored in `*pdwBytesReturned` (`none` when nothing is stored). -/
structure control_result where
  rc : Nat
  RxBuffer : Option IFDNFC_CONTROL_RESP
  pdwBytesReturned : Option Nat
  deriving DecidableEq, Repr

/-- The `switch (req->command)` of IFDHControl: the device afterwards, or `none` for the
return of the error in the default case. -/
def IFDHControl_command (K : ifd_nfc_h) (env : nfc_env) (context : Option Nat)
    (ifdnfc : ifd_device) (req : IFDNFC_CONTROL_REQ) : Option ifd_device :=
  if req.command = K.IFDNFC_SET_ACTIVE ∨ req.command = K.IFDNFC_SET_ACTIVE_SE then
    let ifdnfc := (ifdnfc_nfc_open env 0 context ifdnfc (some req.connstring)).2
    let ifdnfc := { ifdnfc with
      secure_element_as_card := decide (req.command = K.IFDNFC_SET_ACTIVE_SE) }
    some { ifdnfc with mode := req.command }
  else if req.command = K.IFDNFC_SET_INACTIVE then
    let ifdnfc := ifdnfc_disconnect K env ifdnfc
    some { ifdnfc with mode := req.command }
  else if req.command = K.IFDNFC_GET_STATUS then
    some ifdnfc
  else
    none

/-- IFDHControl.  `TxBuffer` is the request structure (`none` for a NULL pointer),
`RxBuffer` and `pdwBytesReturned` tell whether these pointers are non-NULL. -/
def IFDHControl (K : ifd_nfc_h) (env : nfc_env) (st : driver) (Lun : Nat)
    (dwControlCode : Nat) (TxBuffer : Option IFDNFC_CONTROL_REQ) (TxLength : Nat)
    (RxBuffer : Bool) (RxLength : Nat) (pdwBytesReturned : Bool) :
    Option (control_result × driver) :=
  let device_index := lun2device_index K st Lun
  if device_index < 0 then
    some ({ rc := IFD_COMMUNICATION_ERROR, RxBuffer := none, pdwBytesReturned := none }, st)
  else
    match st.ifd_devices[device_index.toNat]? with
    | none => none
    | some ifdnfc =>
      let returned : Option Nat := if pdwBytesReturned then some 0 else none
      if dwControlCode = K.IFDNFC_CTRL_ACTIVE then
        match TxBuffer with
        | none =>
          some ({ rc := IFD_COMMUNICATION_ERROR, RxBuffer := none,
                  pdwBytesReturned := returned }, st)
        | some req =>
          if TxLength ≠ K.sizeof_IFDNFC_CONTROL_REQ ∨ RxLength ≠ K.sizeof_IFDNFC_CONTROL_RESP
              ∨ RxBuffer = false then
            some ({ rc := IFD_COMMUNICATION_ERROR, RxBuffer := none,
                    pdwBytesReturned := returned }, st)
          else
            match IFDHControl_command K env st.context ifdnfc req with
            | none =>
              some ({ rc := IFD_COMMUNICATION_ERROR, RxBuffer := none,
                      pdwBytesReturned := returned }, st)
            | some ifdnfc =>
              let rsp : IFDNFC_CONTROL_RESP :=
                { mode := ifdnfc.mode, connected := ifdnfc.connected, se_avail := false,
                  connstring :=
                    match ifdnfc.ifd_connstring with
                    | some c => c.take (NFC_BUFSIZE_CONNSTRING - 1)
                    | none => [] }
              let se : Bool × ifd_device :=
                if ifdnfc.connected && ifdnfc.secure_element_as_card then
                  ifdnfc_se_is_available env ifdnfc
                else (false, ifdnfc)
              let rsp := if se.1 then { rsp with se_avail := true } else rsp
              let st := { st with ifd_devices := st.ifd_devices.set device_index.toNat se.2 }
              if pdwBytesReturned then
                some ({ rc := IFD_SUCCESS, RxBuffer := some rsp,
                        pdwBytesReturned := some K.sizeof_IFDNFC_CONTROL_RESP }, st)
              else
                -- *pdwBytesReturned = ... through a NULL pointer
                none
      else
        some ({ rc := IFD_ERROR_NOT_SUPPORTED, RxBuffer := none,
                pdwBytesReturned := returned }, st)

/-! ## The state at the start of the driver -/

/-- A zeroed `struct ifd_device`, as static storage is at program start. -/
def ifd_device.zero : ifd_device :=
  { device := none,
    slot :=
      { present := false, initiated := false,
        target :=
          { nti :=
              { nai := { abtAtqa := List.replicate 2 0, btSak := 0, szUidLen := 0,
                         abtUid := List.replicate 10 0, szAtsLen := 0,
                         abtAts := List.replicate 254 0 },
                nbi := { abtPupi := List.replicate 4 0, abtApplicationData := List.replicate 4 0,
                         abtProtocolInfo := List.replicate 3 0, ui8CardIdentifier := 0 } },
            nm := { nmt := .other 0, nbr := .NBR_UNDEFINED } },
        atr := List.replicate MAX_ATR_SIZE 0, atr_len := 0 },
    connected := false, secure_element_as_card := false, Lun := 0, open_attempted_at := 0,
    ifd_connstring := none, mode := 0, ifd_connstring_size := 0 }

/-- The driver at program start; `mem` is what lies after the device table. -/
def driver.start (mem : Nat → Int) : driver :=
  { context := none, ifd_devices := List.replicate IFDNFC_MAX_DEVICES ifd_device.zero,
    ifdnfc_initialized := false, ifd_connstring := [], memory_after := mem }

/-! ## Sample data for the closed instances of the theorems -/

def sample_h : ifd_nfc_h :=
  { IFDNFC_CTRL_ACTIVE := 1, IFDNFC_SET_ACTIVE := 1, IFDNFC_SET_INACTIVE := 2,
    IFDNFC_GET_STATUS := 3, IFDNFC_SET_ACTIVE_SE := 4, IFD_NFC_OPEN_RETRY_INTERVAL := 10,
    sizeof_IFDNFC_CONTROL_REQ := 1028, sizeof_IFDNFC_CONTROL_RESP := 1032,
    sizeof_ifd_device := 400 }

/-- A 14443A target with UID 04 AA BB CC and the given ATS. -/
def sample_target (ats : List Nat) : nfc_target :=
  { nti :=
      { nai := { abtAtqa := [0x00, 0x04], btSak := 0x20, szUidLen := 4,
                 abtUid := [0x04, 0xAA, 0xBB, 0xCC, 0, 0, 0, 0, 0, 0],
                 szAtsLen := ats.length,
                 abtAts := ats ++ List.replicate (254 - ats.length) 0 },
        nbi := ifd_device.zero.slot.target.nti.nbi },
    nm := { nmt := .NMT_ISO14443A, nbr := .NBR_106 } }

/-- A world in which every call fails, except that a select or a list call that is given
a result `sel` and a target `nt` answers with them. -/
def sample_env (sel : Int) (nt : nfc_target) : nfc_env :=
  { nfc_init := some 1, malloc := true, time := fun _ => 100,
    nfc_open := fun _ _ => some 7,
    nfc_initiator_init := fun _ => 0,
    nfc_initiator_init_secure_element := fun _ => -1,
    nfc_device_set_property_bool := fun _ _ _ => 0,
    nfc_initiator_select_passive_target := fun _ _ _ _ => (sel, nt),
    nfc_initiator_list_passive_targets := fun _ _ _ => (sel, nt),
    nfc_initiator_deselect_target := fun _ => 0,
    nfc_initiator_target_is_present := fun _ _ => -1,
    nfc_initiator_transceive_bytes := fun _ _ _ _ => (-1, []),
    get_atr := fun _ _ _ atr n => (false, atr, n) }

/-- A connected device with Lun 0, holding the target `t` and the ATR 3B 80 80 01 01; it
remembers "pn:x" in the block of 4 bytes that `ifdnfc_nfc_open` asks for it. -/
def sample_device (t : nfc_target) (present initiated : Bool) : ifd_device :=
  { device := some 7,
    slot := { present := present, initiated := initiated, target := t,
              atr := [0x3B, 0x80, 0x80, 0x01, 0x01] ++ List.replicate 28 0, atr_len := 5 },
    connected := true, secure_element_as_card := false, Lun := 0, open_attempted_at := 50,
    ifd_connstring := some ['p', 'n', ':', 'x'], mode := 1, ifd_connstring_size := 4 }

/-- A driver whose first table entry is `d`, the nine others being free. -/
def sample_driver (d : ifd_device) : driver :=
  { context := some 1,
    ifd_devices := d :: List.replicate 9 { ifd_device.zero with Lun := -1 },
    ifdnfc_initialized := true, ifd_connstring := [], memory_after := fun _ => 0 }

/-- The request buffer holding the bytes of `l`, and zeros after them. -/
def sample_request (l : List Nat) : Nat → Nat :=
  fun i => l.getD i 0

/-- The world of `sample_env` in which the deselect call fails. -/
def failing_deselect_env (sel : Int) (nt : nfc_target) : nfc_env :=
  { sample_env sel nt with nfc_initiator_deselect_target := fun _ => -1 }

/-- The world of `sample_env` in which `nfc_open` succeeds only when it is given a
context. -/
def context_env : nfc_env :=
  { sample_env 0 (sample_target []) with nfc_open := fun ctx _ => ctx.map (fun _ => 7) }

/-- A driver whose table holds Lun 0 in its first entry only, and where the memory
after the table reads as the `int` 5 at the place of the field `Lun` of an entry 11. -/
def overrun_driver : driver :=
  { sample_driver (sample_device (sample_target []) false false) with
    memory_after := fun i => if i = 11 then 5 else -1 }

/-- The sample device in secure-element mode. -/
def sample_se_device (present initiated : Bool) : ifd_device :=
  { sample_device (sample_target []) present initiated with
    secure_element_as_card := true, mode := 4 }

/-- The sample device after its handle was closed, in the mode ACTIVE. -/
def sample_closed_device : ifd_device :=
  { sample_device (sample_target []) false false with device := none, connected := false }

/-- The world of `sample_env` after the transceiver was closed: `nfc_open` returns a new
handle, 8, and `nfc_initiator_init` fails on every handle it is called on. -/
def reopened_env : nfc_env :=
  { sample_env 1 (sample_target []) with
    nfc_open := fun _ _ => some 8, nfc_initiator_init := fun _ => -1 }

/-- The result of the secure-element test at the end of IFDHControl, on the device `e`
that the `switch` left: the flag `se_avail` of the response and the device afterwards. -/
def IFDHControl_se (env : nfc_env) (e : ifd_device) : Bool × ifd_device :=
  if e.connected && e.secure_element_as_card then ifdnfc_se_is_available env e
  else (false, e)

/-- The string `strncpy` stores in the response of IFDHControl. -/
def IFDHControl_connstring (e : ifd_device) : List Char :=
  match e.ifd_connstring with
  | some c => c.take (NFC_BUFSIZE_CONNSTRING - 1)
  | none => []

/-- The fields of a device outside its slot are the same in `d` and `e`. -/
def same_frame (d e : ifd_device) : Prop :=
  e.device = d.device ∧ e.connected = d.connected
  ∧ e.secure_element_as_card = d.secure_element_as_card ∧ e.Lun = d.Lun
  ∧ e.open_attempted_at = d.open_attempted_at ∧ e.ifd_connstring = d.ifd_connstring
  ∧ e.mode = d.mode

/-! ## Lemmas -/

theorem sample_target_uid_wf (ats : List Nat) : (sample_target ats).nti.nai.uid_wf :=
  ⟨rfl, by show 4 ≤ 10; omega⟩

theorem sample_target_ats_wf (ats : List Nat) (h : ats.length ≤ 254) :
    (sample_target ats).nti.nai.ats_wf := by
  refine ⟨?_, h⟩
  simp only [sample_target, List.length_append, List.length_replicate]
  omega

theorem zero_fill_eq (Le : Nat) :
    ∀ (n RxOff : Nat) (RxBuffer : List Nat), RxOff ≤ Le → Le - RxOff ≤ n →
      zero_fill Le n RxOff RxBuffer = (Le, RxBuffer ++ List.replicate (Le - RxOff) 0) := by
  intro n
  induction n with
  | zero =>
    intro RxOff RxBuffer h1 h2
    have h : Le - RxOff = 0 := by omega
    have h3 : RxOff = Le := by omega
    simp [zero_fill, h, h3]
  | succ n ih =>
    intro RxOff RxBuffer h1 h2
    unfold zero_fill
    by_cases hlt : RxOff < Le
    · rw [if_pos hlt, ih (RxOff + 1) (RxBuffer ++ [0]) (by omega) (by omega)]
      have h : Le - RxOff = (Le - (RxOff + 1)) + 1 := by omega
      rw [h, List.replicate_succ, List.append_assoc]
      rfl
    · have h3 : RxOff = Le := by omega
      simp [h3]

/-- With a Lun found in the table, a connected slot and a present target, a request
that starts with FF CA is answered by the Get Data branch, and the driver is unchanged. -/
theorem IFDHTransmitToICC_intercept (K : ifd_nfc_h) (env : nfc_env) (st : driver)
    (Lun i : Nat) (d : ifd_device) (TxBuffer : Nat → Nat) (TxLength rl : Nat)
    (pci : SCARD_IO_HEADER)
    (hidx : lun2device_index K st Lun = (i : Int)) (hd : st.ifd_devices[i]? = some d)
    (hc : d.connected = true) (hp : d.slot.present = true)
    (h0 : TxBuffer 0 = 0xFF) (h1 : TxBuffer 1 = 0xCA) :
    IFDHTransmitToICC K env st Lun TxBuffer TxLength (some rl) (some pci)
      = some (IFDHTransmitToICC_get_data d TxBuffer TxLength pci, st) := by
  unfold IFDHTransmitToICC
  simp [hidx, hd, hc, hp, h0, h1]

/-! ## The Get Data command (FF CA) -/

/-- C2: on a connected slot with a present target whose stored UID has n bytes, the
5-byte request FF CA 00 P2 Le with Le = 0 or Le = n is answered with IFD_SUCCESS,
RxLength = n + 2 and the n UID bytes followed by 90 00; the driver is unchanged. -/
theorem C2_uid_query_returns_uid (K : ifd_nfc_h) (env : nfc_env) (st : driver)
    (Lun i : Nat) (d : ifd_device) (TxBuffer : Nat → Nat) (rl : Nat) (pci : SCARD_IO_HEADER)
    (hidx : lun2device_index K st Lun = (i : Int)) (hd : st.ifd_devices[i]? = some d)
    (hc : d.connected = true) (hp : d.slot.present = true)
    (hwf : d.slot.target.nti.nai.uid_wf)
    (h0 : TxBuffer 0 = 0xFF) (h1 : TxBuffer 1 = 0xCA) (h2 : TxBuffer 2 = 0x00)
    (hLe : TxBuffer 4 = 0 ∨ TxBuffer 4 = d.slot.target.nti.nai.szUidLen) :
    IFDHTransmitToICC K env st Lun TxBuffer 5 (some rl) (some pci)
      = some ({ rc := IFD_SUCCESS,
                RxBuffer := d.slot.target.nti.nai.abtUid.take d.slot.target.nti.nai.szUidLen
                  ++ [0x90, 0x00],
                RxLength := some (d.slot.target.nti.nai.szUidLen + 2),
                RecvPci := some { pci with Protocol := 1 } }, st)
    ∧ (d.slot.target.nti.nai.abtUid.take d.slot.target.nti.nai.szUidLen).length
        = d.slot.target.nti.nai.szUidLen := by
  obtain ⟨hlen, hn⟩ := hwf
  refine ⟨?_, by rw [List.length_take]; omega⟩
  rw [IFDHTransmitToICC_intercept K env st Lun i d TxBuffer 5 rl pci hidx hd hc hp h0 h1]
  rcases hLe with hLe | hLe <;>
    simp [IFDHTransmitToICC_get_data, get_data, h2, hLe, memcpy]

/-- C2, witness: the UID 04 AA BB CC and the request FF CA 00 00 00 give
04 AA BB CC 90 00. -/
theorem C2_uid_query_returns_uid_witness :
    IFDHTransmitToICC sample_h (sample_env 0 (sample_target [])) (sample_driver (sample_device (sample_target []) true true)) 0
        (sample_request [0xFF, 0xCA, 0x00, 0x00, 0x00]) 5 (some 256) (some ⟨0, 8⟩)
      = some ({ rc := IFD_SUCCESS, RxBuffer := [0x04, 0xAA, 0xBB, 0xCC, 0x90, 0x00],
                RxLength := some 6, RecvPci := some ⟨1, 8⟩ },
              sample_driver (sample_device (sample_target []) true true)) :=
  (C2_uid_query_returns_uid sample_h (sample_env 0 (sample_target []))
    (sample_driver (sample_device (sample_target []) true true)) 0 0
    (sample_device (sample_target []) true true)
    (sample_request [0xFF, 0xCA, 0x00, 0x00, 0x00]) 256 ⟨0, 8⟩
    (by decide) rfl rfl rfl (sample_target_uid_wf []) rfl rfl rfl (Or.inl rfl)).1

/-- C3: on a connected slot with a present target whose stored UID has n bytes, the
5-byte request FF CA 00 P2 Le with 0 < Le < n is answered with IFD_SUCCESS, RxLength = 2
and the two bytes 6C n: no UID byte is stored. -/
theorem C3_uid_query_short_Le (K : ifd_nfc_h) (env : nfc_env) (st : driver)
    (Lun i : Nat) (d : ifd_device) (TxBuffer : Nat → Nat) (rl : Nat) (pci : SCARD_IO_HEADER)
    (hidx : lun2device_index K st Lun = (i : Int)) (hd : st.ifd_devices[i]? = some d)
    (hc : d.connected = true) (hp : d.slot.present = true)
    (hwf : d.slot.target.nti.nai.uid_wf)
    (h0 : TxBuffer 0 = 0xFF) (h1 : TxBuffer 1 = 0xCA) (h2 : TxBuffer 2 = 0x00)
    (hpos : 0 < TxBuffer 4) (hlt : TxBuffer 4 < d.slot.target.nti.nai.szUidLen) :
    IFDHTransmitToICC K env st Lun TxBuffer 5 (some rl) (some pci)
      = some ({ rc := IFD_SUCCESS,
                RxBuffer := [0x6C, d.slot.target.nti.nai.szUidLen],
                RxLength := some 2,
                RecvPci := some { pci with Protocol := 1 } }, st) := by
  obtain ⟨-, hn⟩ := hwf
  rw [IFDHTransmitToICC_intercept K env st Lun i d TxBuffer 5 rl pci hidx hd hc hp h0 h1]
  have hne : TxBuffer 4 ≠ 0 := by omega
  have hmod : d.slot.target.nti.nai.szUidLen % 256 = d.slot.target.nti.nai.szUidLen :=
    Nat.mod_eq_of_lt (by omega)
  simp [IFDHTransmitToICC_get_data, get_data, h2, hne, hlt, hmod]

/-- C3, witness: the 4-byte UID 04 AA BB CC and the request FF CA 00 00 02 give 6C 04. -/
theorem C3_uid_query_short_Le_witness :
    IFDHTransmitToICC sample_h (sample_env 0 (sample_target []))
        (sample_driver (sample_device (sample_target []) true true)) 0
        (sample_request [0xFF, 0xCA, 0x00, 0x00, 0x02]) 5 (some 256) (some ⟨0, 8⟩)
      = some ({ rc := IFD_SUCCESS, RxBuffer := [0x6C, 0x04],
                RxLength := some 2, RecvPci := some ⟨1, 8⟩ },
              sample_driver (sample_device (sample_target []) true true)) :=
  C3_uid_query_short_Le sample_h (sample_env 0 (sample_target []))
    (sample_driver (sample_device (sample_target []) true true)) 0 0
    (sample_device (sample_target []) true true)
    (sample_request [0xFF, 0xCA, 0x00, 0x00, 0x02]) 256 ⟨0, 8⟩
    (by decide) rfl rfl rfl (sample_target_uid_wf []) rfl rfl rfl (by decide) (by decide)

/-- C4: on a connected slot with a present target, a request that starts with FF CA and
whose TxLength is not 5 is answered with IFD_SUCCESS, RxLength = 2 and the two bytes
67 00, whatever the other request bytes and the target are; in particular the answer is
the same whatever byte lies at index 4 of the buffer. -/
theorem C4_get_data_wrong_length (K : ifd_nfc_h) (env : nfc_env) (st : driver)
    (Lun i : Nat) (d : ifd_device) (TxBuffer : Nat → Nat) (TxLength rl : Nat)
    (pci : SCARD_IO_HEADER)
    (hidx : lun2device_index K st Lun = (i : Int)) (hd : st.ifd_devices[i]? = some d)
    (hc : d.connected = true) (hp : d.slot.present = true)
    (h0 : TxBuffer 0 = 0xFF) (h1 : TxBuffer 1 = 0xCA) (hlen : TxLength ≠ 5) :
    IFDHTransmitToICC K env st Lun TxBuffer TxLength (some rl) (some pci)
      = some ({ rc := IFD_SUCCESS, RxBuffer := [0x67, 0x00], RxLength := some 2,
                RecvPci := some { pci with Protocol := 1 } }, st)
    ∧ ∀ b : Nat,
        IFDHTransmitToICC K env st Lun (Function.update TxBuffer 4 b) TxLength (some rl)
            (some pci)
          = IFDHTransmitToICC K env st Lun TxBuffer TxLength (some rl) (some pci) := by
  have key : ∀ T : Nat → Nat, T 0 = 0xFF → T 1 = 0xCA →
      IFDHTransmitToICC K env st Lun T TxLength (some rl) (some pci)
        = some ({ rc := IFD_SUCCESS, RxBuffer := [0x67, 0x00], RxLength := some 2,
                  RecvPci := some { pci with Protocol := 1 } }, st) := by
    intro T hT0 hT1
    rw [IFDHTransmitToICC_intercept K env st Lun i d T TxLength rl pci hidx hd hc hp hT0 hT1]
    simp [IFDHTransmitToICC_get_data, hlen]
  refine ⟨key TxBuffer h0 h1, fun b => ?_⟩
  rw [key TxBuffer h0 h1, key (Function.update TxBuffer 4 b)]
  · rw [Function.update_noteq (by decide)]
    exact h0
  · rw [Function.update_noteq (by decide)]
    exact h1

/-- C4, witness: the 4-byte request FF CA 00 00 gives 67 00. -/
theorem C4_get_data_wrong_length_witness :
    IFDHTransmitToICC sample_h (sample_env 0 (sample_target []))
        (sample_driver (sample_device (sample_target []) true true)) 0
        (sample_request [0xFF, 0xCA, 0x00, 0x00]) 4 (some 256) (some ⟨0, 8⟩)
      = some ({ rc := IFD_SUCCESS, RxBuffer := [0x67, 0x00],
                RxLength := some 2, RecvPci := some ⟨1, 8⟩ },
              sample_driver (sample_device (sample_target []) true true)) :=
  (C4_get_data_wrong_length sample_h (sample_env 0 (sample_target []))
    (sample_driver (sample_device (sample_target []) true true)) 0 0
    (sample_device (sample_target []) true true)
    (sample_request [0xFF, 0xCA, 0x00, 0x00]) 4 256 ⟨0, 8⟩
    (by decide) rfl rfl rfl rfl rfl (by decide)).1

/-- C5: on a connected slot with a present target, a 5-byte request FF CA P1 P2 Le
whose P1 is neither 00 nor 01, or is 01 while the target is not a 14443A one, is
answered with IFD_SUCCESS, RxLength = 2 and the two bytes 6A 81, whatever Le is. -/
theorem C5_get_data_not_supported (K : ifd_nfc_h) (env : nfc_env) (st : driver)
    (Lun i : Nat) (d : ifd_device) (TxBuffer : Nat → Nat) (rl : Nat) (pci : SCARD_IO_HEADER)
    (hidx : lun2device_index K st Lun = (i : Int)) (hd : st.ifd_devices[i]? = some d)
    (hc : d.connected = true) (hp : d.slot.present = true)
    (h0 : TxBuffer 0 = 0xFF) (h1 : TxBuffer 1 = 0xCA)
    (hP1 : (TxBuffer 2 ≠ 0x00 ∧ TxBuffer 2 ≠ 0x01)
      ∨ (TxBuffer 2 = 0x01 ∧ d.slot.target.nm.nmt ≠ .NMT_ISO14443A)) :
    IFDHTransmitToICC K env st Lun TxBuffer 5 (some rl) (some pci)
      = some ({ rc := IFD_SUCCESS, RxBuffer := [0x6A, 0x81], RxLength := some 2,
                RecvPci := some { pci with Protocol := 1 } }, st) := by
  rw [IFDHTransmitToICC_intercept K env st Lun i d TxBuffer 5 rl pci hidx hd hc hp h0 h1]
  rcases hP1 with ⟨ha, hb⟩ | ⟨ha, hb⟩
  · simp [IFDHTransmitToICC_get_data, get_data, ha, hb]
  · simp [IFDHTransmitToICC_get_data, get_data, ha, hb]

/-- C5, witness: the request FF CA 02 00 00 gives 6A 81. -/
theorem C5_get_data_not_supported_witness :
    IFDHTransmitToICC sample_h (sample_env 0 (sample_target []))
        (sample_driver (sample_device (sample_target []) true true)) 0
        (sample_request [0xFF, 0xCA, 0x02, 0x00, 0x00]) 5 (some 256) (some ⟨0, 8⟩)
      = some ({ rc := IFD_SUCCESS, RxBuffer := [0x6A, 0x81],
                RxLength := some 2, RecvPci := some ⟨1, 8⟩ },
              sample_driver (sample_device (sample_target []) true true)) :=
  C5_get_data_not_supported sample_h (sample_env 0 (sample_target []))
    (sample_driver (sample_device (sample_target []) true true)) 0 0
    (sample_device (sample_target []) true true)
    (sample_request [0xFF, 0xCA, 0x02, 0x00, 0x00]) 256 ⟨0, 8⟩
    (by decide) rfl rfl rfl rfl rfl (Or.inl ⟨by decide, by decide⟩)

theorem land_two_pow_ne_zero_iff (x i : Nat) : x &&& 2 ^ i ≠ 0 ↔ x.testBit i = true := by
  constructor
  · intro h
    by_contra hb
    apply h
    apply Nat.eq_of_testBit_eq
    intro j
    rw [Nat.testBit_and, Nat.testBit_two_pow, Nat.zero_testBit]
    by_cases hij : i = j
    · subst hij
      simp [hb]
    · simp [hij]
  · intro hb h
    have := congrArg (fun y => Nat.testBit y i) h
    simp [Nat.testBit_and, Nat.testBit_two_pow, hb] at this

/-- The number of bytes the sub-command 01 skips at the start of the ATS: one, and one
more for each of the bits 4, 5 and 6 of its first byte. -/
theorem get_data_ats (t : nfc_target) (hA : t.nm.nmt = .NMT_ISO14443A) (k : Nat)
    (hk : k = 1 + (if (t.nti.nai.abtAts.getD 0 0).testBit 4 then 1 else 0)
              + (if (t.nti.nai.abtAts.getD 0 0).testBit 5 then 1 else 0)
              + (if (t.nti.nai.abtAts.getD 0 0).testBit 6 then 1 else 0)) :
    get_data t 0x01
      = some (if t.nti.nai.szAtsLen > k then
                (t.nti.nai.abtAts.drop k, t.nti.nai.szAtsLen - k)
              else (t.nti.nai.abtAts, 0)) := by
  unfold get_data
  dsimp only
  generalize t.nti.nai.abtAts.getD 0 0 = x at hk ⊢
  have b4 := land_two_pow_ne_zero_iff x 4
  have b5 := land_two_pow_ne_zero_iff x 5
  have b6 := land_two_pow_ne_zero_iff x 6
  norm_num at b4 b5 b6
  by_cases hL : t.nti.nai.szAtsLen = 0
  · have hk1 : ¬ t.nti.nai.szAtsLen > k := by omega
    simp [hA, hL]
  · subst hk
    by_cases h4 : x.testBit 4 = true <;>
    by_cases h5 : x.testBit 5 = true <;>
    by_cases h6 : x.testBit 6 = true <;>
    simp [hA, hL, b4, b5, b6, h4, h5, h6] <;> split_ifs <;> rfl

/-- The length `get_data` announces lies within the bytes it points to. -/
theorem get_data_length (t : nfc_target) (huid : t.nti.nai.uid_wf) (hats : t.nti.nai.ats_wf)
    (P1 : Nat) (Data : List Nat) (n : Nat) (h : get_data t P1 = some (Data, n)) :
    n ≤ Data.length := by
  obtain ⟨hu, hn⟩ := huid
  obtain ⟨ha, hl⟩ := hats
  by_cases h0 : P1 = 0x00
  · subst h0
    simp only [get_data, if_true, Option.some.injEq, Prod.mk.injEq] at h
    obtain ⟨rfl, rfl⟩ := h
    omega
  · by_cases h1 : P1 = 0x01 ∧ t.nm.nmt = .NMT_ISO14443A
    · obtain ⟨rfl, hA⟩ := h1
      obtain ⟨k, hk⟩ : ∃ k, k = 1 + (if (t.nti.nai.abtAts.getD 0 0).testBit 4 then 1 else 0)
          + (if (t.nti.nai.abtAts.getD 0 0).testBit 5 then 1 else 0)
          + (if (t.nti.nai.abtAts.getD 0 0).testBit 6 then 1 else 0) := ⟨_, rfl⟩
      rw [get_data_ats t hA k hk] at h
      clear hk
      simp only [Option.some.injEq] at h
      split_ifs at h with hgt
      · simp only [Prod.mk.injEq] at h
        obtain ⟨rfl, rfl⟩ := h
        rw [List.length_drop]
        omega
      · simp only [Prod.mk.injEq] at h
        obtain ⟨rfl, rfl⟩ := h
        omega
    · simp [get_data, h0, h1] at h

/-- C6: on a connected slot with a present target, a 5-byte Get Data request whose
sub-command selects n bytes of data (the `switch` yields `Data` and `DataLength = n`,
with n bytes at `Data`) and whose Le is not zero and greater than n is answered with
IFD_SUCCESS, RxLength = Le + 2 and the n data bytes, then Le - n zero bytes, then 62 82. -/
theorem C6_get_data_zero_padded (K : ifd_nfc_h) (env : nfc_env) (st : driver)
    (Lun i : Nat) (d : ifd_device) (TxBuffer : Nat → Nat) (rl : Nat) (pci : SCARD_IO_HEADER)
    (hidx : lun2device_index K st Lun = (i : Int)) (hd : st.ifd_devices[i]? = some d)
    (hc : d.connected = true) (hp : d.slot.present = true)
    (h0 : TxBuffer 0 = 0xFF) (h1 : TxBuffer 1 = 0xCA)
    (Data : List Nat) (n : Nat)
    (hsel : get_data d.slot.target (TxBuffer 2) = some (Data, n)) (hlen : n ≤ Data.length)
    (hLe : TxBuffer 4 ≠ 0) (hgt : n < TxBuffer 4) :
    IFDHTransmitToICC K env st Lun TxBuffer 5 (some rl) (some pci)
      = some ({ rc := IFD_SUCCESS,
                RxBuffer := Data.take n ++ List.replicate (TxBuffer 4 - n) 0 ++ [0x62, 0x82],
                RxLength := some (TxBuffer 4 + 2),
                RecvPci := some { pci with Protocol := 1 } }, st)
    ∧ (Data.take n).length = n := by
  refine ⟨?_, by rw [List.length_take]; omega⟩
  rw [IFDHTransmitToICC_intercept K env st Lun i d TxBuffer 5 rl pci hidx hd hc hp h0 h1]
  have hnlt : ¬ TxBuffer 4 < n := by omega
  simp only [IFDHTransmitToICC_get_data, hsel, ne_eq, not_true_eq_false, if_false, hLe,
    hnlt, gt_iff_lt, hgt, if_true, memcpy,
    zero_fill_eq (TxBuffer 4) (TxBuffer 4) n (Data.take n) (by omega) (by omega)]

/-- C6, witness: the UID 04 AA BB CC and the request FF CA 00 00 06 give
04 AA BB CC 00 00 62 82. -/
theorem C6_get_data_zero_padded_witness :
    IFDHTransmitToICC sample_h (sample_env 0 (sample_target []))
        (sample_driver (sample_device (sample_target []) true true)) 0
        (sample_request [0xFF, 0xCA, 0x00, 0x00, 0x06]) 5 (some 256) (some ⟨0, 8⟩)
      = some ({ rc := IFD_SUCCESS,
                RxBuffer := [0x04, 0xAA, 0xBB, 0xCC, 0x00, 0x00, 0x62, 0x82],
                RxLength := some 8, RecvPci := some ⟨1, 8⟩ },
              sample_driver (sample_device (sample_target []) true true)) :=
  (C6_get_data_zero_padded sample_h (sample_env 0 (sample_target []))
    (sample_driver (sample_device (sample_target []) true true)) 0 0
    (sample_device (sample_target []) true true)
    (sample_request [0xFF, 0xCA, 0x00, 0x00, 0x06]) 256 ⟨0, 8⟩
    (by decide) rfl rfl rfl rfl rfl
    [0x04, 0xAA, 0xBB, 0xCC, 0, 0, 0, 0, 0, 0] 4 rfl (by decide) (by decide) (by decide)).1

/-- C7: on a connected slot with a present 14443A target whose stored ATS is a[0..L), the
request FF CA 01 P2 00 is answered with IFD_SUCCESS and data ++ 90 00, RxLength being
the length of data plus 2, where data is empty when L = 0 and otherwise, with
k = 1 + (1 if a[0] has bit 4) + (1 if a[0] has bit 5) + (1 if a[0] has bit 6), data is
a[k..L) when L > k and empty when L <= k. -/
theorem C7_ats_query_strips_interface_bytes (K : ifd_nfc_h) (env : nfc_env) (st : driver)
    (Lun i : Nat) (d : ifd_device) (TxBuffer : Nat → Nat) (rl : Nat) (pci : SCARD_IO_HEADER)
    (hidx : lun2device_index K st Lun = (i : Int)) (hd : st.ifd_devices[i]? = some d)
    (hc : d.connected = true) (hp : d.slot.present = true)
    (hwf : d.slot.target.nti.nai.ats_wf)
    (hA : d.slot.target.nm.nmt = .NMT_ISO14443A)
    (h0 : TxBuffer 0 = 0xFF) (h1 : TxBuffer 1 = 0xCA) (h2 : TxBuffer 2 = 0x01)
    (h4 : TxBuffer 4 = 0x00)
    (a : List Nat) (L k : Nat) (data : List Nat)
    (ha : a = d.slot.target.nti.nai.abtAts) (hL : L = d.slot.target.nti.nai.szAtsLen)
    (hk : k = 1 + (if (a.getD 0 0).testBit 4 then 1 else 0)
              + (if (a.getD 0 0).testBit 5 then 1 else 0)
              + (if (a.getD 0 0).testBit 6 then 1 else 0))
    (hdata : data = if L = 0 then [] else if L > k then (a.take L).drop k else []) :
    IFDHTransmitToICC K env st Lun TxBuffer 5 (some rl) (some pci)
      = some ({ rc := IFD_SUCCESS, RxBuffer := data ++ [0x90, 0x00],
                RxLength := some (data.length + 2),
                RecvPci := some { pci with Protocol := 1 } }, st) := by
  obtain ⟨hlen, hle⟩ := hwf
  subst ha hL
  rw [IFDHTransmitToICC_intercept K env st Lun i d TxBuffer 5 rl pci hidx hd hc hp h0 h1]
  simp only [IFDHTransmitToICC_get_data, h2, h4, get_data_ats d.slot.target hA k hk]
  by_cases hgt : d.slot.target.nti.nai.szAtsLen > k
  · have hne : d.slot.target.nti.nai.szAtsLen ≠ 0 := by omega
    have hd2 : data = (d.slot.target.nti.nai.abtAts.take d.slot.target.nti.nai.szAtsLen).drop k := by
      rw [hdata, if_neg hne, if_pos hgt]
    have hlen2 : data.length = d.slot.target.nti.nai.szAtsLen - k := by
      rw [hd2, List.length_drop, List.length_take]
      omega
    rw [hlen2, hd2, List.drop_take]
    simp [hgt, memcpy]
  · have hd2 : data = [] := by
      rw [hdata]
      split_ifs <;> rfl
    subst hd2
    simp [hgt, memcpy]

/-- C7, witness: the ATS 78 80 70 02 AA BB (bits 4, 5 and 6 of the first byte set) and
the request FF CA 01 00 00 give AA BB 90 00. -/
theorem C7_ats_query_strips_interface_bytes_witness :
    IFDHTransmitToICC sample_h (sample_env 0 (sample_target []))
        (sample_driver (sample_device (sample_target [0x78, 0x80, 0x70, 0x02, 0xAA, 0xBB])
          true true)) 0
        (sample_request [0xFF, 0xCA, 0x01, 0x00, 0x00]) 5 (some 256) (some ⟨0, 8⟩)
      = some ({ rc := IFD_SUCCESS, RxBuffer := [0xAA, 0xBB] ++ [0x90, 0x00],
                RxLength := some ([0xAA, 0xBB].length + 2), RecvPci := some ⟨1, 8⟩ },
              sample_driver (sample_device (sample_target [0x78, 0x80, 0x70, 0x02, 0xAA, 0xBB])
                true true)) :=
  C7_ats_query_strips_interface_bytes sample_h (sample_env 0 (sample_target []))
    (sample_driver (sample_device (sample_target [0x78, 0x80, 0x70, 0x02, 0xAA, 0xBB])
      true true)) 0 0
    (sample_device (sample_target [0x78, 0x80, 0x70, 0x02, 0xAA, 0xBB]) true true)
    (sample_request [0xFF, 0xCA, 0x01, 0x00, 0x00]) 256 ⟨0, 8⟩
    (by decide) rfl rfl rfl (sample_target_ats_wf _ (by decide)) rfl rfl rfl rfl rfl
    (sample_target [0x78, 0x80, 0x70, 0x02, 0xAA, 0xBB]).nti.nai.abtAts 6 4 [0xAA, 0xBB]
    rfl rfl (by decide) (by decide)

/-! ## IFDHPowerICC -/

theorem set_getElem?_self {α : Type} (l : List α) (i : Nat) (d : α) (h : l[i]? = some d) :
    l.set i d = l := by
  induction l generalizing i with
  | nil => rfl
  | cons x xs ih =>
    cases i with
    | zero =>
      simp only [List.getElem?_cons_zero, Option.some.injEq] at h
      subst h
      rfl
    | succ j =>
      simp only [List.getElem?_cons_succ] at h
      simp only [List.set_cons_succ, ih j h]

/-- With a Lun found in the table and non-NULL pointers, IFDHPowerICC is its part on
the device found, which is stored back in the table. -/
theorem IFDHPowerICC_found (K : ifd_nfc_h) (env : nfc_env) (st : driver)
    (Lun i : Nat) (d : ifd_device) (Action len : Nat)
    (hidx : lun2device_index K st Lun = (i : Int)) (hd : st.ifd_devices[i]? = some d) :
    IFDHPowerICC K env st Lun Action true (some len)
      = some ((IFDHPowerICC_device env d Action len).1,
              { st with ifd_devices :=
                  st.ifd_devices.set i (IFDHPowerICC_device env d Action len).2 }) := by
  unfold IFDHPowerICC
  simp [hidx, hd]

/-- C8, the code at the failing input: IFD_RESET on a connected slot without a present
target returns IFD_SUCCESS; it stores no ATR byte, leaves `*AtrLength` as the caller set
it and leaves the driver unchanged. -/
theorem C8_reset_without_target_returns_success (K : ifd_nfc_h) (env : nfc_env) (st : driver)
    (Lun i : Nat) (d : ifd_device) (len : Nat)
    (hidx : lun2device_index K st Lun = (i : Int)) (hd : st.ifd_devices[i]? = some d)
    (hc : d.connected = true) (hp : d.slot.present = false) :
    IFDHPowerICC K env st Lun IFD_RESET true (some len)
      = some ({ rc := IFD_SUCCESS, Atr := [], AtrLength := some len }, st) := by
  rw [IFDHPowerICC_found K env st Lun i d IFD_RESET len hidx hd]
  have h : IFDHPowerICC_device env d IFD_RESET len
      = ({ rc := IFD_SUCCESS, Atr := [], AtrLength := some len }, d) := by
    simp [IFDHPowerICC_device, hc, hp, IFD_RESET, IFD_POWER_DOWN]
  rw [h, set_getElem?_self _ _ _ hd]

/-- C8, the failing input: a connected device without target, IFD_RESET and a 33-byte
ATR buffer; the call returns IFD_SUCCESS = 0. -/
theorem C8_reset_without_target_returns_success_witness :
    IFDHPowerICC sample_h (sample_env 0 (sample_target []))
        (sample_driver (sample_device (sample_target []) false false)) 0 IFD_RESET true
        (some 33)
      = some ({ rc := 0, Atr := [], AtrLength := some 33 },
              sample_driver (sample_device (sample_target []) false false)) :=
  C8_reset_without_target_returns_success sample_h (sample_env 0 (sample_target []))
    (sample_driver (sample_device (sample_target []) false false)) 0 0
    (sample_device (sample_target []) false false) 33 (by decide) rfl rfl rfl

/-- C9: on a connected slot with a present 14443A target and a stored ATR of length m,
when the deselect succeeds, the infinite-select property is set, the select filtered by
the stored UID finds a target and the caller's AtrLength is at least m, IFD_RESET
returns IFD_SUCCESS, stores the m stored ATR bytes, sets AtrLength = m, and the slot
afterwards differs from the one before in `present` only (now false): its ATR and ATR
length are unchanged. -/
theorem C9_warm_reset_returns_stored_atr (K : ifd_nfc_h) (env : nfc_env) (st : driver)
    (Lun i : Nat) (d : ifd_device) (len : Nat)
    (hidx : lun2device_index K st Lun = (i : Int)) (hd : st.ifd_devices[i]? = some d)
    (hc : d.connected = true) (hp : d.slot.present = true)
    (hA : d.slot.target.nm.nmt = .NMT_ISO14443A)
    (hatr : d.slot.atr_len ≤ d.slot.atr.length)
    (hdes : 0 ≤ env.nfc_initiator_deselect_target d.device)
    (hprop : 0 ≤ env.nfc_device_set_property_bool d.device .NP_INFINITE_SELECT false)
    (hsel : 1 ≤ (env.nfc_initiator_select_passive_target d.device d.slot.target.nm
              (some d.slot.target.nti.nai.abtUid) d.slot.target.nti.nai.szUidLen).1)
    (hlen : d.slot.atr_len ≤ len) :
    IFDHPowerICC K env st Lun IFD_RESET true (some len)
      = some ({ rc := IFD_SUCCESS, Atr := d.slot.atr.take d.slot.atr_len,
                AtrLength := some d.slot.atr_len },
              { st with ifd_devices :=
                  st.ifd_devices.set i { d with slot := { d.slot with present := false } } })
    ∧ (d.slot.atr.take d.slot.atr_len).length = d.slot.atr_len := by
  refine ⟨?_, by rw [List.length_take]; omega⟩
  rw [IFDHPowerICC_found K env st Lun i d IFD_RESET len hidx hd]
  have h : IFDHPowerICC_device env d IFD_RESET len
      = ({ rc := IFD_SUCCESS, Atr := d.slot.atr.take d.slot.atr_len,
           AtrLength := some d.slot.atr_len },
         { d with slot := { d.slot with present := false } }) := by
    simp [IFDHPowerICC_device, ifdnfc_reselect_target, hc, hp, hA, IFD_RESET, IFD_POWER_DOWN,
      not_lt.mpr hdes, not_lt.mpr hprop, not_lt.mpr hsel, not_lt.mpr hlen, memcpy]
  rw [h]

/-- C9, witness: the stored ATR 3B 80 80 01 01 is returned, with AtrLength = 5. -/
theorem C9_warm_reset_returns_stored_atr_witness :
    IFDHPowerICC sample_h (sample_env 1 (sample_target []))
        (sample_driver (sample_device (sample_target []) true true)) 0 IFD_RESET true
        (some 33)
      = some ({ rc := IFD_SUCCESS, Atr := [0x3B, 0x80, 0x80, 0x01, 0x01],
                AtrLength := some 5 },
              sample_driver (sample_device (sample_target []) false true)) :=
  (C9_warm_reset_returns_stored_atr sample_h (sample_env 1 (sample_target []))
    (sample_driver (sample_device (sample_target []) true true)) 0 0
    (sample_device (sample_target []) true true) 33 (by decide) rfl rfl rfl rfl
    (by decide) (by decide) (by decide) (by decide) (by decide)).1

/-! ## The presence poll -/

theorem memcmp_eq_zero_iff :
    ∀ (n : Nat) (a b : List Nat), memcmp a b n = 0 ↔ a.take n = b.take n := by
  intro n
  induction n with
  | zero =>
    intro a b
    simp [memcmp]
  | succ n ih =>
    intro a b
    cases a with
    | nil =>
      cases b with
      | nil => simp [memcmp]
      | cons y b => simp [memcmp]
    | cons x a =>
      cases b with
      | nil => simp [memcmp]
      | cons y b =>
        by_cases hxy : x = y
        · simp [memcmp, hxy, ih a b]
        · have hne : (x : Int) - (y : Int) ≠ 0 := by omega
          simp [memcmp, hxy, hne]

/-- C10: in a presence poll of a connected slot with `present` set and `initiated`
clear, whose target is a 14443A one, when the initiator start succeeds and the select
without UID filter finds a target whose ATS differs from the stored one in length or in
content, the poll reports false and `present` is false afterwards. -/
theorem C10_cold_reselect_ats_mismatch (env : nfc_env) (d : ifd_device)
    (hc : d.connected = true) (hp : d.slot.present = true) (hi : d.slot.initiated = false)
    (hA : d.slot.target.nm.nmt = .NMT_ISO14443A)
    (hinit : 0 ≤ env.nfc_initiator_init d.device)
    (res : Int) (nt : nfc_target)
    (hsel : env.nfc_initiator_select_passive_target d.device d.slot.target.nm none 0
              = (res, nt))
    (hfound : 1 ≤ res)
    (hdiff : d.slot.target.nti.nai.szAtsLen ≠ nt.nti.nai.szAtsLen
      ∨ d.slot.target.nti.nai.abtAts.take d.slot.target.nti.nai.szAtsLen
          ≠ nt.nti.nai.abtAts.take nt.nti.nai.szAtsLen) :
    (ifdnfc_target_is_available env d).1 = false
    ∧ (ifdnfc_target_is_available env d).2.slot.present = false := by
  have hcmp : ¬ (d.slot.target.nti.nai.szAtsLen = nt.nti.nai.szAtsLen
      ∧ 0 = memcmp d.slot.target.nti.nai.abtAts nt.nti.nai.abtAts nt.nti.nai.szAtsLen) := by
    rintro ⟨h1, h2⟩
    rcases hdiff with h | h
    · exact h h1
    · apply h
      rw [h1]
      exact (memcmp_eq_zero_iff _ _ _).mp h2.symm
  by_cases hprop :
      env.nfc_device_set_property_bool d.device .NP_INFINITE_SELECT false < 0
  · simp [ifdnfc_target_is_available, ifdnfc_reselect_target, hc, hp, hi, hA,
      not_lt.mpr hinit, hprop]
  · simp [ifdnfc_target_is_available, ifdnfc_reselect_target, hc, hp, hi, hA,
      not_lt.mpr hinit, hprop, hsel, not_lt.mpr hfound, hcmp]

/-- C10, witness: the stored ATS is empty and the target selected has the ATS 78 80. -/
theorem C10_cold_reselect_ats_mismatch_witness :
    (ifdnfc_target_is_available (sample_env 1 (sample_target [0x78, 0x80]))
        (sample_device (sample_target []) true false)).1 = false
    ∧ (ifdnfc_target_is_available (sample_env 1 (sample_target [0x78, 0x80]))
        (sample_device (sample_target []) true false)).2.slot.present = false :=
  C10_cold_reselect_ats_mismatch (sample_env 1 (sample_target [0x78, 0x80]))
    (sample_device (sample_target []) true false) rfl rfl rfl rfl (by decide)
    1 (sample_target [0x78, 0x80]) rfl (by decide) (Or.inl (by decide))

/-! ## The invariant "present implies connected" -/

/-- The function `ifdnfc_disconnect` on a connected device with a present target, when
the deselect fails: the device is closed and `present` stays set. -/
theorem ifdnfc_disconnect_failed_deselect (K : ifd_nfc_h) (env : nfc_env) (d : ifd_device)
    (hc : d.connected = true) (hp : d.slot.present = true)
    (hdes : env.nfc_initiator_deselect_target d.device < 0) :
    (ifdnfc_disconnect K env d).connected = false
    ∧ (ifdnfc_disconnect K env d).slot.present = true := by
  simp [ifdnfc_disconnect, hc, hp, hdes]

/-- C1, the code at the failing input: from the start of the driver,
IFDHCreateChannelByName (Lun 0, device name "pn:x", the open succeeds), IFDHICCPresence
(one target is listed) and IFDHControl with the verb SET_INACTIVE (the deselect fails)
all return IFD_SUCCESS, and the slot of Lun 0 then has `connected` false and `present`
true. -/
theorem C1_failed_deselect_leaves_present_without_connected :
    ((IFDHCreateChannelByName sample_h (sample_env 1 (sample_target []))
        (driver.start (fun _ => 0)) 0 (some ['p', 'n', ':', 'x'])).bind fun r1 =>
      (IFDHICCPresence sample_h (sample_env 1 (sample_target [])) r1.2 0).bind fun r2 =>
      (IFDHControl sample_h (failing_deselect_env 1 (sample_target [])) r2.2 0
        sample_h.IFDNFC_CTRL_ACTIVE (some ⟨sample_h.IFDNFC_SET_INACTIVE, []⟩)
        sample_h.sizeof_IFDNFC_CONTROL_REQ true sample_h.sizeof_IFDNFC_CONTROL_RESP
        true).bind fun r3 =>
      r3.2.ifd_devices[0]?.map fun d =>
        (r1.1, r2.1, r3.1.rc, d.Lun, d.connected, d.slot.present))
      = some (IFD_SUCCESS, IFD_SUCCESS, IFD_SUCCESS, 0, false, true) := by
  decide

/-! ## The shared context -/

/-- C11, the code at the failing input: from the start of the driver,
IFDHCreateChannelByName (Lun 0), IFDHCloseChannel (Lun 0) and IFDHCreateChannelByName
(Lun 0) all return IFD_SUCCESS with `nfc_init` never failing; the context is set after
the first call and NULL after the second, and after the third it is still NULL although
Lun 0 is allocated: the open of the third call was given the NULL context. -/
theorem C11_context_stays_null_after_last_close :
    ((IFDHCreateChannelByName sample_h context_env (driver.start (fun _ => 0)) 0
        (some ['p', 'n', ':', 'x'])).bind fun r1 =>
      (IFDHCloseChannel sample_h context_env r1.2 0).bind fun r2 =>
      (IFDHCreateChannelByName sample_h context_env r2.2 0
        (some ['p', 'n', ':', 'x'])).map fun r3 =>
        ((r1.1, r1.2.context, r1.2.ifd_devices.map (fun d => (d.Lun, d.connected))),
         (r2.1, r2.2.context, r2.2.ifd_devices.map (fun d => (d.Lun, d.connected))),
         (r3.1, r3.2.context, r3.2.ifd_devices.map (fun d => (d.Lun, d.connected)))))
      = some
          ((IFD_SUCCESS, some 1, (0, true) :: List.replicate 9 (-1, false)),
           (IFD_SUCCESS, none, List.replicate 10 (-1, false)),
           (IFD_SUCCESS, none, (0, false) :: List.replicate 9 (-1, false))) := by
  rfl

/-! ## The lookup of a Lun -/

/-- C19, the code at the failing input: no entry of the table holds Lun 5, the memory
after the table reads as 5 where the field `Lun` of an entry 11 would be;
`lun2device_index` returns 11 instead of -1, and IFDHICCPresence then works on an entry
outside the table instead of returning IFD_COMMUNICATION_ERROR. -/
theorem C19_lookup_runs_past_the_table :
    overrun_driver.ifd_devices.map (fun d => d.Lun) = 0 :: List.replicate 9 (-1)
    ∧ lun2device_index sample_h overrun_driver 5 = 11
    ∧ (IFDHICCPresence sample_h context_env overrun_driver 5).map (fun r => r.1) = none := by
  decide

/-! ## What the discovery functions leave unchanged -/

theorem same_frame_refl (d : ifd_device) : same_frame d d :=
  ⟨rfl, rfl, rfl, rfl, rfl, rfl, rfl⟩

theorem ifdnfc_target_to_atr_frame (env : nfc_env) (d : ifd_device) :
    same_frame d (ifdnfc_target_to_atr env d).2
    ∧ (ifdnfc_target_to_atr env d).2.slot.initiated = d.slot.initiated
    ∧ (ifdnfc_target_to_atr env d).2.slot.present = d.slot.present
    ∧ (ifdnfc_target_to_atr env d).2.slot.target = d.slot.target := by
  unfold ifdnfc_target_to_atr
  dsimp only
  split <;> (try split_ifs) <;> simp [same_frame]

theorem ifdnfc_reselect_target_frame (env : nfc_env) (d : ifd_device) (warm : Bool) :
    (ifdnfc_reselect_target env d warm).2 = d
    ∨ (ifdnfc_reselect_target env d warm).2
        = { d with slot := { d.slot with present := false } } := by
  unfold ifdnfc_reselect_target
  dsimp only
  split <;> (try split_ifs) <;> simp

theorem ifdnfc_se_is_available_frame (env : nfc_env) (d : ifd_device) :
    same_frame d (ifdnfc_se_is_available env d).2
    ∧ (ifdnfc_se_is_available env d).2.slot.initiated = d.slot.initiated := by
  unfold ifdnfc_se_is_available
  dsimp only
  split_ifs
  all_goals first
    | exact ⟨same_frame_refl d, rfl⟩
    | exact ⟨⟨rfl, rfl, rfl, rfl, rfl, rfl, rfl⟩, rfl⟩
    | skip
  all_goals
    obtain ⟨hf, hi, -, -⟩ := ifdnfc_target_to_atr_frame env
      { d with slot := { d.slot with
          target := (env.nfc_initiator_select_passive_target d.device
            { nmt := .NMT_ISO14443A, nbr := .NBR_106 } none 0).2 } }
    exact ⟨hf, hi⟩

theorem same_frame_trans {d e f : ifd_device} (h1 : same_frame d e) (h2 : same_frame e f) :
    same_frame d f := by
  obtain ⟨a1, a2, a3, a4, a5, a6, a7⟩ := h1
  obtain ⟨b1, b2, b3, b4, b5, b6, b7⟩ := h2
  exact ⟨b1.trans a1, b2.trans a2, b3.trans a3, b4.trans a4, b5.trans a5, b6.trans a6,
    b7.trans a7⟩

theorem ifdnfc_target_is_available_loop_frame (env : nfc_env) :
    ∀ (l : List nfc_modulation) (d : ifd_device),
      same_frame d (ifdnfc_target_is_available_loop env l d).2 := by
  intro l
  induction l with
  | nil =>
    intro d
    exact same_frame_refl d
  | cons nm rest ih =>
    intro d
    unfold ifdnfc_target_is_available_loop
    dsimp only
    split_ifs
    · obtain ⟨hf, -⟩ := ifdnfc_target_to_atr_frame env
        { d with slot := { d.slot with
            target := (env.nfc_initiator_list_passive_targets d.device nm 1).2 } }
      exact hf
    · exact same_frame_trans ⟨rfl, rfl, rfl, rfl, rfl, rfl, rfl⟩ (ih _)

theorem ifdnfc_target_is_available_frame (env : nfc_env) (d : ifd_device) :
    same_frame d (ifdnfc_target_is_available env d).2 := by
  unfold ifdnfc_target_is_available
  dsimp only
  split_ifs
  all_goals first
    | exact same_frame_refl d
    | exact ⟨rfl, rfl, rfl, rfl, rfl, rfl, rfl⟩
    | skip
  all_goals first
    | (rcases ifdnfc_reselect_target_frame env
          { d with slot := { d.slot with initiated := true } } false with h | h <;>
        rw [h] <;> exact ⟨rfl, rfl, rfl, rfl, rfl, rfl, rfl⟩)
    | exact same_frame_trans ⟨rfl, rfl, rfl, rfl, rfl, rfl, rfl⟩
        (ifdnfc_target_is_available_loop_frame env _ _)

/-! ## The lookup after a table entry was replaced -/

theorem Lun_at_set (st : driver) (i : Nat) (d e : ifd_device)
    (hd : st.ifd_devices[i]? = some d) (hL : e.Lun = d.Lun) (j : Nat) :
    Lun_at { st with ifd_devices := st.ifd_devices.set i e } j = Lun_at st j := by
  unfold Lun_at
  dsimp only
  by_cases hij : i = j
  · subst hij
    have hlt : i < st.ifd_devices.length := by
      by_contra hge
      rw [List.getElem?_eq_none (by omega)] at hd
      exact Option.noConfusion hd
    rw [List.getElem?_set_self hlt, hd]
    exact hL
  · rw [List.getElem?_set_ne hij]

theorem lun2device_index_loop_congr (st st2 : driver) (Lun : Nat)
    (h : ∀ j, Lun_at st2 j = Lun_at st j) :
    ∀ n k, lun2device_index_loop st2 Lun n k = lun2device_index_loop st Lun n k := by
  intro n
  induction n with
  | zero =>
    intro k
    rfl
  | succ n ih =>
    intro k
    simp only [lun2device_index_loop, h k, ih (k + 1)]

/-- Replacing the entry `i` of the table by a device with the same Lun does not change
the result of any lookup. -/
theorem lun2device_index_set (K : ifd_nfc_h) (st : driver) (i : Nat) (d e : ifd_device)
    (hd : st.ifd_devices[i]? = some d) (hL : e.Lun = d.Lun) (Lun : Nat) :
    lun2device_index K { st with ifd_devices := st.ifd_devices.set i e } Lun
      = lun2device_index K st Lun := by
  unfold lun2device_index
  exact lun2device_index_loop_congr st _ Lun (Lun_at_set st i d e hd hL) _ _

theorem getElem?_set_found (st : driver) (i : Nat) (d e : ifd_device)
    (hd : st.ifd_devices[i]? = some d) : (st.ifd_devices.set i e)[i]? = some e := by
  have hlt : i < st.ifd_devices.length := by
    by_contra hge
    rw [List.getElem?_eq_none (by omega)] at hd
    exact Option.noConfusion hd
  exact List.getElem?_set_self hlt

/-! ## IFDHICCPresence -/

/-- With a Lun found in the table, IFDHICCPresence is its part on the device found,
which is stored back in the table. -/
theorem IFDHICCPresence_found (K : ifd_nfc_h) (env : nfc_env) (st : driver)
    (Lun i : Nat) (d : ifd_device)
    (hidx : lun2device_index K st Lun = (i : Int)) (hd : st.ifd_devices[i]? = some d) :
    IFDHICCPresence K env st Lun
      = some ((IFDHICCPresence_device K env st.context d).1,
              { st with ifd_devices :=
                  st.ifd_devices.set i (IFDHICCPresence_device K env st.context d).2 }) := by
  unfold IFDHICCPresence
  simp [hidx, hd]

theorem IFDHICCPresence_poll_frame (env : nfc_env) (d : ifd_device) :
    same_frame d (IFDHICCPresence_poll env d).2 := by
  unfold IFDHICCPresence_poll
  by_cases hse : d.secure_element_as_card = true
  · rw [if_pos hse]
    exact same_frame_refl d
  · rw [if_neg hse]
    exact ifdnfc_target_is_available_frame env d

/-- C12: on a connected slot with `secure_element_as_card` and `present` set,
IFDHICCPresence returns IFD_SUCCESS and leaves the whole driver (so the slot, and
`present`) unchanged, whatever the radio stack would answer; so does any sequence of
presence checks, each with its own answers of the radio stack. -/
theorem C12_secure_element_presence_is_sticky (K : ifd_nfc_h) (env : nfc_env) (st : driver)
    (Lun i : Nat) (d : ifd_device)
    (hidx : lun2device_index K st Lun = (i : Int)) (hd : st.ifd_devices[i]? = some d)
    (hc : d.connected = true) (hse : d.secure_element_as_card = true)
    (hp : d.slot.present = true) :
    IFDHICCPresence K env st Lun = some (IFD_SUCCESS, st)
    ∧ ∀ envs : List nfc_env,
        envs.foldl (fun s e => s.bind fun st1 => (IFDHICCPresence K e st1 Lun).map Prod.snd)
          (some st) = some st := by
  have one : ∀ e : nfc_env, IFDHICCPresence K e st Lun = some (IFD_SUCCESS, st) := by
    intro e
    rw [IFDHICCPresence_found K e st Lun i d hidx hd]
    have h : IFDHICCPresence_device K e st.context d = (IFD_SUCCESS, d) := by
      simp [IFDHICCPresence_device, IFDHICCPresence_poll, hc, hse, hp]
    rw [h, set_getElem?_self _ _ _ hd]
  refine ⟨one env, fun envs => ?_⟩
  induction envs with
  | nil => rfl
  | cons e rest ih =>
    rw [List.foldl_cons]
    have step : ((some st).bind fun st1 => (IFDHICCPresence K e st1 Lun).map Prod.snd)
        = some st := by
      simp [one e]
    rw [step]
    exact ih

/-- C15: on a slot that is not connected, IFDHICCPresence calls `ifdnfc_nfc_open` (with
the remembered connection string) exactly when the mode is ACTIVE or
ACTIVE_WITH_SECURE_ELEMENT and `time(NULL) - open_attempted_at` is at least
IFD_NFC_OPEN_RETRY_INTERVAL: then its result is the one that follows from that call, and
when the handle is NULL, the remembered string not empty and its copy allocated, the
slot afterwards holds the handle `nfc_open` returned and the time of the attempt.  In
every other case it returns IFD_ICC_NOT_PRESENT and leaves the driver unchanged,
whatever the radio stack would answer. -/
theorem C15_presence_reopen_gate (K : ifd_nfc_h) (env : nfc_env) (st : driver)
    (Lun i : Nat) (d : ifd_device)
    (hidx : lun2device_index K st Lun = (i : Int)) (hd : st.ifd_devices[i]? = some d)
    (hc : d.connected = false) :
    (((d.mode = K.IFDNFC_SET_ACTIVE ∨ d.mode = K.IFDNFC_SET_ACTIVE_SE)
        ∧ K.IFD_NFC_OPEN_RETRY_INTERVAL ≤ env.time 0 - d.open_attempted_at) →
      IFDHICCPresence K env st Lun
        = some
            (if (ifdnfc_nfc_open env 1 st.context d d.ifd_connstring).1 = false then
              (IFD_ICC_NOT_PRESENT,
               { st with
                 ifd_devices :=
                   st.ifd_devices.set i
                     (ifdnfc_nfc_open env 1 st.context d d.ifd_connstring).2 })
            else
              ((IFDHICCPresence_poll env
                  (ifdnfc_nfc_open env 1 st.context d d.ifd_connstring).2).1,
               { st with
                 ifd_devices :=
                   st.ifd_devices.set i
                     (IFDHICCPresence_poll env
                       (ifdnfc_nfc_open env 1 st.context d d.ifd_connstring).2).2 }))
      ∧ ∀ (c : Char) (cs : List Char), d.device = none → d.ifd_connstring = some (c :: cs) →
          env.malloc = true →
          ∃ rc st1 e, IFDHICCPresence K env st Lun = some (rc, st1)
            ∧ st1.ifd_devices[i]? = some e
            ∧ e.device = env.nfc_open st.context (c :: cs)
            ∧ e.open_attempted_at = env.time 1
            ∧ e.connected = (env.nfc_open st.context (c :: cs)).isSome)
    ∧ (¬ ((d.mode = K.IFDNFC_SET_ACTIVE ∨ d.mode = K.IFDNFC_SET_ACTIVE_SE)
        ∧ K.IFD_NFC_OPEN_RETRY_INTERVAL ≤ env.time 0 - d.open_attempted_at) →
      IFDHICCPresence K env st Lun = some (IFD_ICC_NOT_PRESENT, st)) := by
  rw [IFDHICCPresence_found K env st Lun i d hidx hd]
  constructor
  · rintro ⟨hm, ht⟩
    have hdev : IFDHICCPresence_device K env st.context d
        = (if (ifdnfc_nfc_open env 1 st.context d d.ifd_connstring).1 = false then
            (IFD_ICC_NOT_PRESENT, (ifdnfc_nfc_open env 1 st.context d d.ifd_connstring).2)
          else
            IFDHICCPresence_poll env
              (ifdnfc_nfc_open env 1 st.context d d.ifd_connstring).2) := by
      simp [IFDHICCPresence_device, hc, hm, not_lt.mpr ht]
    constructor
    · rw [hdev]
      split_ifs <;> rfl
    · intro c cs hnull hcs hmalloc
      obtain ⟨sz, hopen⟩ : ∃ sz : Nat, ifdnfc_nfc_open env 1 st.context d (some (c :: cs))
          = ((env.nfc_open st.context (c :: cs)).isSome,
             { d with open_attempted_at := env.time 1,
                      device := env.nfc_open st.context (c :: cs),
                      connected := (env.nfc_open st.context (c :: cs)).isSome,
                      ifd_connstring_size := sz }) := by
        by_cases hcolon : strchr (c :: cs) ':' = true
        · refine ⟨(c :: cs).length, ?_⟩
          unfold ifdnfc_nfc_open
          cases hres : env.nfc_open st.context (c :: cs) <;>
            simp [hnull, hcs, hmalloc, hcolon, hres]
        · refine ⟨d.ifd_connstring_size, ?_⟩
          unfold ifdnfc_nfc_open
          cases hres : env.nfc_open st.context (c :: cs) <;>
            simp [hnull, hcs, hmalloc, hcolon, hres]
      rw [hdev, hcs, hopen]
      refine ⟨_, _, _, rfl, getElem?_set_found st i d _ hd, ?_⟩
      cases hres : env.nfc_open st.context (c :: cs) with
      | none => simp
      | some h =>
        simp only [Option.isSome_some, Bool.true_eq_false, if_false]
        obtain ⟨f1, f2, -, -, f5, -, -⟩ := IFDHICCPresence_poll_frame env
          { d with open_attempted_at := env.time 1, device := some h, connected := true,
                   ifd_connstring_size := sz }
        exact ⟨f1, f5, f2⟩
  · intro hn
    have hdev : IFDHICCPresence_device K env st.context d = (IFD_ICC_NOT_PRESENT, d) := by
      by_cases hm : d.mode = K.IFDNFC_SET_ACTIVE ∨ d.mode = K.IFDNFC_SET_ACTIVE_SE
      · have ht : env.time 0 - d.open_attempted_at < K.IFD_NFC_OPEN_RETRY_INTERVAL := by
          by_contra hge
          exact hn ⟨hm, not_lt.mp hge⟩
        simp [IFDHICCPresence_device, hc, hm, ht]
      · simp [IFDHICCPresence_device, hc, hm]
    rw [hdev, set_getElem?_self _ _ _ hd]

/-- C12, witness: a presence check on the sample device in secure-element mode, in a
world where the initialisation of the secure element fails. -/
theorem C12_secure_element_presence_is_sticky_witness :
    IFDHICCPresence sample_h (sample_env 0 (sample_target []))
        (sample_driver (sample_se_device true false)) 0
      = some (IFD_SUCCESS, sample_driver (sample_se_device true false)) :=
  (C12_secure_element_presence_is_sticky sample_h (sample_env 0 (sample_target []))
    (sample_driver (sample_se_device true false)) 0 0 (sample_se_device true false)
    (by decide) rfl rfl rfl rfl).1

/-- C15, witness: the sample device, closed, in the mode ACTIVE, 50 seconds after the
last attempt with an interval of 10: the handle 7 that `nfc_open` returns is stored. -/
theorem C15_presence_reopen_gate_witness :
    ∃ rc st1 e,
      IFDHICCPresence sample_h (sample_env 0 (sample_target []))
          (sample_driver sample_closed_device) 0 = some (rc, st1)
      ∧ st1.ifd_devices[0]? = some e
      ∧ e.device = some 7 ∧ e.open_attempted_at = 100 ∧ e.connected = true :=
  ((C15_presence_reopen_gate sample_h (sample_env 0 (sample_target []))
    (sample_driver sample_closed_device) 0 0 sample_closed_device
    (by decide) rfl rfl).1 ⟨Or.inl rfl, by decide⟩).2 'p' ['n', ':', 'x'] rfl rfl rfl

/-! ## The allocation of a table entry -/

theorem getElem?_lt_of_some {α : Type} (l : List α) (i : Nat) (d : α) (h : l[i]? = some d) :
    i < l.length := by
  by_contra hge
  rw [List.getElem?_eq_none (by omega)] at h
  exact Option.noConfusion h

theorem find_free_slot_some (devs : List ifd_device) (hlen : devs.length = 10) (i : Nat)
    (e : ifd_device) (he : devs[i]? = some e) (hfree : e.Lun = -1)
    (hmin : ∀ (j : Nat) (f : ifd_device), j < i → devs[j]? = some f → f.Lun ≠ -1) :
    ∀ n k, k + n = 10 → k ≤ i → find_free_slot devs n k = some i := by
  have hi : i < 10 := hlen ▸ getElem?_lt_of_some devs i e he
  intro n
  induction n with
  | zero =>
    intro k hk hki
    omega
  | succ n ih =>
    intro k hk hki
    have hk10 : k < devs.length := by omega
    unfold find_free_slot
    rw [List.getElem?_eq_getElem hk10]
    dsimp only
    by_cases hL : devs[k].Lun = -1
    · rw [if_pos hL]
      by_cases hik : k = i
      · rw [hik]
      · exact absurd hL (hmin k devs[k] (by omega) (List.getElem?_eq_getElem hk10))
    · rw [if_neg hL]
      have hne : k ≠ i := by
        rintro rfl
        rw [List.getElem?_eq_getElem hk10] at he
        simp only [Option.some.injEq] at he
        rw [he] at hL
        exact hL hfree
      have h9 : ¬ k = IFDNFC_MAX_DEVICES - 1 := by
        simp only [IFDNFC_MAX_DEVICES]
        omega
      rw [if_neg h9]
      exact ih (k + 1) (by omega) (by omega)

theorem find_free_slot_none (devs : List ifd_device) (hlen : devs.length = 10)
    (hfull : ∀ (j : Nat) (f : ifd_device), devs[j]? = some f → f.Lun ≠ -1) :
    ∀ n k, k + n = 10 → find_free_slot devs n k = none := by
  intro n
  induction n with
  | zero =>
    intro k _
    rfl
  | succ n ih =>
    intro k hk
    have hk10 : k < devs.length := by omega
    unfold find_free_slot
    rw [List.getElem?_eq_getElem hk10]
    dsimp only
    rw [if_neg (hfull k devs[k] (List.getElem?_eq_getElem hk10))]
    split_ifs
    · rfl
    · exact ih (k + 1) (by omega)

theorem DWORD_to_int_small (n : Nat) (h : n < 2 ^ 31) : DWORD_to_int n = (n : Int) := by
  unfold DWORD_to_int
  have h1 : n % 2 ^ 32 = n := Nat.mod_eq_of_lt (by omega)
  rw [h1, if_pos h]

/-- The function `ifdnfc_nfc_open` does not touch the slot and the Lun. -/
theorem ifdnfc_nfc_open_slot (env : nfc_env) (k : Nat) (context : Option Nat)
    (d : ifd_device) (cs : Option (List Char)) :
    (ifdnfc_nfc_open env k context d cs).2.slot = d.slot
    ∧ (ifdnfc_nfc_open env k context d cs).2.Lun = d.Lun := by
  unfold ifdnfc_nfc_open
  dsimp only
  split_ifs <;> (try split) <;> simp

/-- The part of IFDHCreateChannelByName after the choice of the entry `i`, in an
initialised driver: the call returns IFD_SUCCESS and replaces the entry `i` by a device
with the new Lun and the old value of `initiated`. -/
theorem IFDHCreateChannelByName_initialized (K : ifd_nfc_h) (env : nfc_env) (st : driver)
    (Lun : Nat) (name : List Char) (i : Nat) (e : ifd_device)
    (hinit : st.ifdnfc_initialized = true)
    (hfind : find_free_slot st.ifd_devices IFDNFC_MAX_DEVICES 0 = some i)
    (he : st.ifd_devices[i]? = some e) :
    ∃ (e1 : ifd_device) (cs : List Char),
      IFDHCreateChannelByName K env st Lun (some name)
        = some (IFD_SUCCESS,
            { st with ifd_devices := st.ifd_devices.set i e1, ifd_connstring := cs })
      ∧ e1.Lun = DWORD_to_int Lun ∧ e1.slot.initiated = e.slot.initiated := by
  unfold IFDHCreateChannelByName
  simp only [hinit, Bool.not_true, Bool.false_eq_true, if_false, hfind, he]
  refine ⟨_, _, rfl, rfl, ?_⟩
  split_ifs <;> simp [(ifdnfc_nfc_open_slot env 0 _ _ _).1]

/-- The first call of IFDHCreateChannelByName, when `nfc_init` gives a context: every
Lun of the table is set to -1, then the entry 0 receives the new Lun. -/
theorem IFDHCreateChannelByName_first (K : ifd_nfc_h) (env : nfc_env) (st : driver)
    (Lun : Nat) (name : List Char) (hlen : st.ifd_devices.length = 10)
    (hinit : st.ifdnfc_initialized = false) (hctx : env.nfc_init ≠ none) :
    ∃ (e1 : ifd_device) (cs : List Char),
      IFDHCreateChannelByName K env st Lun (some name)
        = some (IFD_SUCCESS,
            { st with ifd_devices := (free_all st.ifd_devices).set 0 e1,
                      context := env.nfc_init, ifdnfc_initialized := true,
                      ifd_connstring := cs })
      ∧ e1.Lun = DWORD_to_int Lun := by
  have h0 : 0 < (free_all st.ifd_devices).length := by
    simp [free_all, hlen]
  unfold IFDHCreateChannelByName
  simp only [hinit, Bool.not_false, if_true, hctx, if_false,
    List.getElem?_eq_getElem h0]
  exact ⟨_, _, rfl, rfl⟩

/-- C16: in an initialised driver with a DWORD Lun that fits an `int`,
IFDHCreateChannelByName returns IFD_SUCCESS, stores the new Lun in the lowest-index entry
of the 10-entry table whose Lun is -1 and leaves the Lun of every other entry unchanged;
when no entry has the Lun -1 it returns IFD_COMMUNICATION_ERROR and leaves the driver
unchanged.  On the first call (driver not initialised, `nfc_init` giving a context) it
stores the new Lun in the entry 0. -/
theorem C16_create_channel_uses_first_free_entry (K : ifd_nfc_h) (env : nfc_env)
    (st : driver) (Lun : Nat) (name : List Char)
    (hlen : st.ifd_devices.length = 10) (hLun : Lun < 2 ^ 31) :
    (st.ifdnfc_initialized = true →
      ∀ (i : Nat) (e : ifd_device), st.ifd_devices[i]? = some e → e.Lun = -1 →
        (∀ (j : Nat) (f : ifd_device), j < i → st.ifd_devices[j]? = some f → f.Lun ≠ -1) →
        ∃ st1, IFDHCreateChannelByName K env st Lun (some name) = some (IFD_SUCCESS, st1)
          ∧ st1.ifd_devices.length = 10
          ∧ (st1.ifd_devices[i]?).map (fun d => d.Lun) = some (Lun : Int)
          ∧ ∀ j, j ≠ i →
              (st1.ifd_devices[j]?).map (fun d => d.Lun)
                = (st.ifd_devices[j]?).map (fun d => d.Lun))
    ∧ (st.ifdnfc_initialized = true →
        (∀ (j : Nat) (f : ifd_device), st.ifd_devices[j]? = some f → f.Lun ≠ -1) →
        IFDHCreateChannelByName K env st Lun (some name)
          = some (IFD_COMMUNICATION_ERROR, st))
    ∧ (st.ifdnfc_initialized = false → env.nfc_init ≠ none →
        ∃ st1, IFDHCreateChannelByName K env st Lun (some name) = some (IFD_SUCCESS, st1)
          ∧ (st1.ifd_devices[0]?).map (fun d => d.Lun) = some (Lun : Int)) := by
  refine ⟨?_, ?_, ?_⟩
  · intro hinit i e he hfree hmin
    have hfind := find_free_slot_some st.ifd_devices hlen i e he hfree hmin 10 0 rfl
      (Nat.zero_le i)
    obtain ⟨e1, cs, hres, hL, -⟩ :=
      IFDHCreateChannelByName_initialized K env st Lun name i e hinit hfind he
    have hi : i < st.ifd_devices.length := getElem?_lt_of_some _ i e he
    refine ⟨_, hres, ?_, ?_, ?_⟩
    · simp [hlen]
    · simp only [List.getElem?_set_self hi, Option.map_some', hL,
        DWORD_to_int_small Lun hLun]
    · intro j hj
      simp only [List.getElem?_set_ne (Ne.symm hj)]
  · intro hinit hfull
    have hfind := find_free_slot_none st.ifd_devices hlen hfull 10 0 rfl
    unfold IFDHCreateChannelByName
    simp only [hinit, Bool.not_true, Bool.false_eq_true, if_false]
    have h10 : IFDNFC_MAX_DEVICES = 10 := rfl
    rw [h10, hfind]
  · intro hinit hctx
    obtain ⟨e1, cs, hres, hL⟩ := IFDHCreateChannelByName_first K env st Lun name hlen hinit hctx
    refine ⟨_, hres, ?_⟩
    have h0 : 0 < (free_all st.ifd_devices).length := by
      simp [free_all, hlen]
    simp only [List.getElem?_set_self h0, Option.map_some', hL, DWORD_to_int_small Lun hLun]

/-- C16, witness: the table holds Lun 0 in its entry 0, the other entries are free; a
channel for Lun 3 is created in the entry 1. -/
theorem C16_create_channel_uses_first_free_entry_witness :
    ∃ st1,
      IFDHCreateChannelByName sample_h context_env
          (sample_driver (sample_device (sample_target []) false false)) 3
          (some ['p', 'n', ':', 'y']) = some (IFD_SUCCESS, st1)
      ∧ st1.ifd_devices.length = 10
      ∧ (st1.ifd_devices[1]?).map (fun d => d.Lun) = some 3
      ∧ ∀ j, j ≠ 1 →
          (st1.ifd_devices[j]?).map (fun d => d.Lun)
            = ((sample_driver (sample_device (sample_target []) false false)).ifd_devices[j]?).map
                (fun d => d.Lun) :=
  (C16_create_channel_uses_first_free_entry sample_h context_env
    (sample_driver (sample_device (sample_target []) false false)) 3 ['p', 'n', ':', 'y']
    rfl (by decide)).1 rfl 1 { ifd_device.zero with Lun := -1 } rfl rfl
    (by
      intro j f hj hf
      have h0 : j = 0 := by omega
      subst h0
      simp only [sample_driver, List.getElem?_cons_zero, Option.some.injEq] at hf
      subst hf
      decide)

/-! ## The flag `initiated` -/

theorem map_set_same {α β : Type} (f : α → β) (l : List α) (i : Nat) (e e1 : α)
    (he : l[i]? = some e) (h : f e1 = f e) : (l.set i e1).map f = l.map f := by
  rw [List.map_set]
  apply set_getElem?_self
  rw [List.getElem?_map, he, Option.map_some', h]

theorem free_all_initiated (devs : List ifd_device) :
    (free_all devs).map (fun d => d.slot.initiated) = devs.map (fun d => d.slot.initiated) := by
  simp [free_all, List.map_map, Function.comp_def]

theorem IFDHCreateChannelByName_first_entry (K : ifd_nfc_h) (env : nfc_env) (st : driver)
    (Lun : Nat) (name : List Char) (e : ifd_device) (c : Nat)
    (hinit : st.ifdnfc_initialized = false) (hctx : env.nfc_init = some c)
    (he : (free_all st.ifd_devices)[0]? = some e) :
    ∃ (e1 : ifd_device) (cs : List Char),
      IFDHCreateChannelByName K env st Lun (some name)
        = some (IFD_SUCCESS,
            { st with ifd_devices := (free_all st.ifd_devices).set 0 e1,
                      context := env.nfc_init, ifdnfc_initialized := true,
                      ifd_connstring := cs })
      ∧ e1.slot.initiated = e.slot.initiated := by
  have hne : env.nfc_init ≠ none := by
    rw [hctx]
    exact Option.some_ne_none c
  unfold IFDHCreateChannelByName
  simp only [hinit, Bool.not_false, if_true, hne, if_false, he]
  refine ⟨_, _, rfl, ?_⟩
  split_ifs <;> simp [(ifdnfc_nfc_open_slot env 0 _ _ _).1]

/-- IFDHCreateChannelByName leaves the flag `initiated` of every table entry as it was. -/
theorem IFDHCreateChannelByName_initiated (K : ifd_nfc_h) (env : nfc_env) (st : driver)
    (Lun : Nat) (name : Option (List Char)) :
    (IFDHCreateChannelByName K env st Lun name).map
        (fun r => r.2.ifd_devices.map (fun d => d.slot.initiated))
      = (IFDHCreateChannelByName K env st Lun name).map
          (fun _ => st.ifd_devices.map (fun d => d.slot.initiated)) := by
  cases name with
  | none =>
    unfold IFDHCreateChannelByName
    dsimp only
    split
    · simp only [Option.map_some', Option.some.injEq]
      split_ifs <;> first | rfl | exact free_all_initiated _
    · split <;> simp_all
  | some name =>
    by_cases hinit : st.ifdnfc_initialized = true
    · cases hfind : find_free_slot st.ifd_devices IFDNFC_MAX_DEVICES 0 with
      | none =>
        unfold IFDHCreateChannelByName
        simp [hinit, hfind]
      | some i =>
        cases he : st.ifd_devices[i]? with
        | none =>
          unfold IFDHCreateChannelByName
          simp [hinit, hfind, he]
        | some e =>
          obtain ⟨e1, cs, hres, -, hI⟩ :=
            IFDHCreateChannelByName_initialized K env st Lun name i e hinit hfind he
          rw [hres]
          simp only [Option.map_some', Option.some.injEq]
          exact map_set_same (fun d => d.slot.initiated) _ i e e1 he hI
    · have hinit2 : st.ifdnfc_initialized = false := by
        simpa using hinit
      cases hctx : env.nfc_init with
      | none =>
        unfold IFDHCreateChannelByName
        simp [hinit2, hctx, free_all_initiated]
      | some c =>
        cases he : (free_all st.ifd_devices)[0]? with
        | none =>
          unfold IFDHCreateChannelByName
          simp [hinit2, hctx, he]
        | some e =>
          obtain ⟨e1, cs, hres, hI⟩ :=
            IFDHCreateChannelByName_first_entry K env st Lun name e c hinit2 hctx he
          rw [hres]
          simp only [Option.map_some', Option.some.injEq]
          rw [map_set_same (fun d => d.slot.initiated) _ 0 e e1 he hI]
          exact free_all_initiated _

/-- No operation that closes or replaces the handle clears `initiated`:
`ifdnfc_disconnect`, `ifdnfc_nfc_open` and IFDHCreateChannelByName leave
`slot.initiated` of every device as it was. -/
theorem initiated_is_left_unchanged (K : ifd_nfc_h) (env : nfc_env) :
    (∀ d : ifd_device, (ifdnfc_disconnect K env d).slot.initiated = d.slot.initiated)
    ∧ (∀ (k : Nat) (context : Option Nat) (d : ifd_device) (cs : Option (List Char)),
        (ifdnfc_nfc_open env k context d cs).2.slot.initiated = d.slot.initiated)
    ∧ (∀ (st : driver) (Lun : Nat) (name : Option (List Char)),
        (IFDHCreateChannelByName K env st Lun name).map
            (fun r => r.2.ifd_devices.map (fun d => d.slot.initiated))
          = (IFDHCreateChannelByName K env st Lun name).map
              (fun _ => st.ifd_devices.map (fun d => d.slot.initiated))) := by
  refine ⟨?_, ?_, ?_⟩
  · intro d
    unfold ifdnfc_disconnect
    dsimp only
    split_ifs <;> rfl
  · intro k context d cs
    rw [(ifdnfc_nfc_open_slot env k context d cs).1]
  · intro st Lun name
    exact IFDHCreateChannelByName_initiated K env st Lun name

/-- C17, the code at the failing input: from the start of the driver,
IFDHCreateChannelByName (Lun 0, the open gives the handle 7), IFDHICCPresence (the
initiator is started on the handle 7, one target is listed), IFDHControl with the verb
SET_INACTIVE, IFDHControl with the verb SET_ACTIVE and an empty string (the open gives
the new handle 8) and IFDHICCPresence, in a world where `nfc_initiator_init` fails on
every handle.  All calls return IFD_SUCCESS.  After SET_INACTIVE the handle is NULL and
`initiated` is still true; after SET_ACTIVE the handle is 8 and `initiated` is still
true; the last presence check reports a target, so it did not start the initiator on
the handle 8.  On the same handle with `initiated` clear the same check calls
`nfc_initiator_init` and returns IFD_ICC_NOT_PRESENT. -/
theorem C17_initiated_survives_close_and_reopen :
    ((IFDHCreateChannelByName sample_h (sample_env 1 (sample_target []))
        (driver.start (fun _ => 0)) 0 (some ['p', 'n', ':', 'x'])).bind fun r1 =>
      (IFDHICCPresence sample_h (sample_env 1 (sample_target [])) r1.2 0).bind fun r2 =>
      (IFDHControl sample_h (sample_env 1 (sample_target [])) r2.2 0
        sample_h.IFDNFC_CTRL_ACTIVE (some ⟨sample_h.IFDNFC_SET_INACTIVE, []⟩)
        sample_h.sizeof_IFDNFC_CONTROL_REQ true sample_h.sizeof_IFDNFC_CONTROL_RESP
        true).bind fun r3 =>
      (IFDHControl sample_h reopened_env r3.2 0
        sample_h.IFDNFC_CTRL_ACTIVE (some ⟨sample_h.IFDNFC_SET_ACTIVE, []⟩)
        sample_h.sizeof_IFDNFC_CONTROL_REQ true sample_h.sizeof_IFDNFC_CONTROL_RESP
        true).bind fun r4 =>
      (IFDHICCPresence sample_h reopened_env r4.2 0).map fun r5 =>
        ((r1.1, r2.1, r3.1.rc, r4.1.rc, r5.1),
         r2.2.ifd_devices.map (fun d => (d.device, d.slot.initiated)) |>.take 1,
         r3.2.ifd_devices.map (fun d => (d.device, d.slot.initiated)) |>.take 1,
         r4.2.ifd_devices.map (fun d => (d.device, d.slot.initiated)) |>.take 1,
         r5.2.ifd_devices.map (fun d => (d.device, d.slot.initiated, d.slot.present))
           |>.take 1))
      = some
          ((IFD_SUCCESS, IFD_SUCCESS, IFD_SUCCESS, IFD_SUCCESS, IFD_SUCCESS),
           [(some 7, true)], [(none, true)], [(some 8, true)], [(some 8, true, true)])
    ∧ (IFDHICCPresence sample_h reopened_env
        (sample_driver
          { sample_device (sample_target []) false false with device := some 8 }) 0).map
          (fun r => r.1)
      = some IFD_ICC_NOT_PRESENT :=
  ⟨rfl, rfl⟩

/-! ## Targets of the technology 14443B -/

theorem IFDHPowerICC_device_reset (env : nfc_env) (d : ifd_device) (len : Nat)
    (hc : d.connected = true) :
    (IFDHPowerICC_device env d IFD_RESET len).2
      = { d with slot := { d.slot with present := false } } := by
  unfold IFDHPowerICC_device
  rw [if_neg (by simp [hc]), if_neg (by decide), if_pos rfl]
  by_cases hp : d.slot.present = true
  · rw [if_pos hp]
    dsimp only
    split_ifs
    · rfl
    · rcases ifdnfc_reselect_target_frame env
        { d with slot := { d.slot with present := false } } true with h | h <;> rw [h]
    · rcases ifdnfc_reselect_target_frame env
        { d with slot := { d.slot with present := false } } true with h | h <;> rw [h]
    · rcases ifdnfc_reselect_target_frame env
        { d with slot := { d.slot with present := false } } true with h | h <;> rw [h]
  · rw [if_neg hp]
    have hp2 : d.slot.present = false := by simpa using hp
    obtain ⟨device, ⟨present, initiated, target, atr, atr_len⟩, connected, se, L, t, cs, mode,
      sz⟩ := d
    simp only at hp2
    subst hp2
    rfl

/-- C20: on a connected slot, whatever the radio stack answers, `slot.present` is false
after IFDHPowerICC with the action IFD_RESET (the slot is otherwise as before), also
when the call returns IFD_SUCCESS; an IFDHTransmitToICC issued next returns
IFD_ICC_NOT_PRESENT with RxLength = 0 and stores nothing. -/
theorem C20_reset_leaves_present_false (K : ifd_nfc_h) (env : nfc_env) (st : driver)
    (Lun i : Nat) (d : ifd_device) (len : Nat)
    (hidx : lun2device_index K st Lun = (i : Int)) (hd : st.ifd_devices[i]? = some d)
    (hc : d.connected = true) :
    (IFDHPowerICC K env st Lun IFD_RESET true (some len)).map Prod.snd
      = some
          { st with
            ifd_devices :=
              st.ifd_devices.set i { d with slot := { d.slot with present := false } } }
    ∧ ∀ (env2 : nfc_env) (TxBuffer : Nat → Nat) (TxLength rl : Nat) (pci : SCARD_IO_HEADER),
        IFDHTransmitToICC K env2
            { st with
              ifd_devices :=
                st.ifd_devices.set i { d with slot := { d.slot with present := false } } }
            Lun TxBuffer TxLength (some rl) (some pci)
          = some ({ rc := IFD_ICC_NOT_PRESENT, RxBuffer := [], RxLength := some 0,
                    RecvPci := some pci },
                  { st with
                    ifd_devices :=
                      st.ifd_devices.set i
                        { d with slot := { d.slot with present := false } } }) := by
  constructor
  · rw [IFDHPowerICC_found K env st Lun i d IFD_RESET len hidx hd,
      IFDHPowerICC_device_reset env d len hc]
    rfl
  · intro env2 TxBuffer TxLength rl pci
    have hidx2 := lun2device_index_set K st i d
      { d with slot := { d.slot with present := false } } hd rfl Lun
    have hd2 := getElem?_set_found st i d
      { d with slot := { d.slot with present := false } } hd
    unfold IFDHTransmitToICC
    simp [hidx2, hidx, hd2]

/-- C20, witness: the warm reset of the sample device returns IFD_SUCCESS, and the
request 00 A4 04 00 sent next is answered with IFD_ICC_NOT_PRESENT. -/
theorem C20_reset_leaves_present_false_witness :
    (IFDHPowerICC sample_h (sample_env 1 (sample_target []))
        (sample_driver (sample_device (sample_target []) true true)) 0 IFD_RESET true
        (some 33)).map (fun r => r.1.rc) = some IFD_SUCCESS
    ∧ IFDHTransmitToICC sample_h (sample_env 1 (sample_target []))
        (sample_driver (sample_device (sample_target []) false true)) 0
        (sample_request [0x00, 0xA4, 0x04, 0x00]) 4 (some 256) (some ⟨0, 8⟩)
      = some ({ rc := IFD_ICC_NOT_PRESENT, RxBuffer := [], RxLength := some 0,
                RecvPci := some ⟨0, 8⟩ },
              sample_driver (sample_device (sample_target []) false true)) :=
  ⟨by decide,
   (C20_reset_leaves_present_false sample_h (sample_env 1 (sample_target []))
    (sample_driver (sample_device (sample_target []) true true)) 0 0
    (sample_device (sample_target []) true true) 33 (by decide) rfl rfl).2
    (sample_env 1 (sample_target [])) (sample_request [0x00, 0xA4, 0x04, 0x00]) 4 256 ⟨0, 8⟩⟩

/-! ## IFDHControl -/

/-- With a Lun found in the table, the recognised control code, well-sized buffers and
a verb the `switch` accepts, IFDHControl returns IFD_SUCCESS with the response built
from the device `e` the `switch` left, and stores back the device the secure-element
test left. -/
theorem IFDHControl_of_command (K : ifd_nfc_h) (env : nfc_env) (st : driver)
    (Lun i : Nat) (d e : ifd_device) (req : IFDNFC_CONTROL_REQ)
    (hidx : lun2device_index K st Lun = (i : Int)) (hd : st.ifd_devices[i]? = some d)
    (hcmd : IFDHControl_command K env st.context d req = some e) :
    IFDHControl K env st Lun K.IFDNFC_CTRL_ACTIVE (some req) K.sizeof_IFDNFC_CONTROL_REQ
        true K.sizeof_IFDNFC_CONTROL_RESP true
      = some ({ rc := IFD_SUCCESS,
                RxBuffer := some { mode := e.mode, connected := e.connected,
                                   se_avail := (IFDHControl_se env e).1,
                                   connstring := IFDHControl_connstring e },
                pdwBytesReturned := some K.sizeof_IFDNFC_CONTROL_RESP },
              { st with ifd_devices := st.ifd_devices.set i (IFDHControl_se env e).2 }) := by
  unfold IFDHControl
  simp only [hidx, Int.natCast_nonneg, not_lt.mpr, if_false, Int.toNat_ofNat, hd, if_true,
    ne_eq, not_true_eq_false, Bool.true_eq_false, or_self, hcmd]
  unfold IFDHControl_se IFDHControl_connstring
  by_cases hg : (e.connected && e.secure_element_as_card) = true
  · simp only [hg, if_true]
    cases (ifdnfc_se_is_available env e).1 <;> rfl
  · simp only [hg, if_false]
    rfl

theorem IFDHControl_se_frame (env : nfc_env) (e : ifd_device) :
    same_frame e (IFDHControl_se env e).2
    ∧ (IFDHControl_se env e).2.slot.initiated = e.slot.initiated := by
  unfold IFDHControl_se
  split_ifs
  · exact ifdnfc_se_is_available_frame env e
  · exact ⟨same_frame_refl e, rfl⟩

/-- The secure-element test of IFDHControl leaves the device alone when the device is
not connected, or not in secure-element mode, or has `present` and `initiated` set. -/
theorem IFDHControl_se_unchanged (env : nfc_env) (e : ifd_device)
    (h : e.connected = false ∨ e.secure_element_as_card = false
      ∨ (e.slot.present = true ∧ e.slot.initiated = true)) :
    (IFDHControl_se env e).2 = e := by
  unfold IFDHControl_se
  rcases h with h | h | ⟨hp, hi⟩
  · simp [h]
  · simp [h]
  · by_cases hg : (e.connected && e.secure_element_as_card) = true
    · rw [if_pos hg]
      have hc : e.connected = true := by
        simp only [Bool.and_eq_true] at hg
        exact hg.1
      simp [ifdnfc_se_is_available, hc, hp, hi]
    · rw [if_neg hg]

/-- C14, counterexample: the sample device in secure-element mode, connected, with
`present` set and `initiated` clear; the verb GET_STATUS, in a world where the secure
element cannot be initialised, returns IFD_SUCCESS and clears `present`. -/
theorem C14_get_status_clears_present :
    (sample_se_device true false).slot.present = true
    ∧ (IFDHControl sample_h (sample_env 0 (sample_target []))
        (sample_driver (sample_se_device true false)) 0
        sample_h.IFDNFC_CTRL_ACTIVE (some ⟨sample_h.IFDNFC_GET_STATUS, []⟩)
        sample_h.sizeof_IFDNFC_CONTROL_REQ true sample_h.sizeof_IFDNFC_CONTROL_RESP
        true).bind (fun r => r.2.ifd_devices[0]?.map fun d => (r.1.rc, d.slot.present))
      = some (IFD_SUCCESS, false) := by
  decide

/-- C14, amended: with the recognised control code and well-sized buffers, the verb
GET_STATUS returns IFD_SUCCESS and leaves unchanged, in the slot of the Lun, the mode,
`connected`, the handle, the remembered connection string, the secure-element flag, the
Lun, the time of the last open attempt and `initiated`, and every other table entry;
when the slot is not connected, or not in secure-element mode, or has `present` and
`initiated` set, the whole driver is unchanged.  (Otherwise `ifdnfc_se_is_available`
runs and may change `present`, the target, the ATR and its length.) -/
theorem C14_get_status_frame (K : ifd_nfc_h) (env : nfc_env) (st : driver)
    (Lun i : Nat) (d : ifd_device) (cs : List Char)
    (hidx : lun2device_index K st Lun = (i : Int)) (hd : st.ifd_devices[i]? = some d)
    (h1 : K.IFDNFC_GET_STATUS ≠ K.IFDNFC_SET_ACTIVE)
    (h2 : K.IFDNFC_GET_STATUS ≠ K.IFDNFC_SET_ACTIVE_SE)
    (h3 : K.IFDNFC_GET_STATUS ≠ K.IFDNFC_SET_INACTIVE) :
    (∃ (r : control_result) (e : ifd_device),
      IFDHControl K env st Lun K.IFDNFC_CTRL_ACTIVE (some ⟨K.IFDNFC_GET_STATUS, cs⟩)
          K.sizeof_IFDNFC_CONTROL_REQ true K.sizeof_IFDNFC_CONTROL_RESP true
        = some (r, { st with ifd_devices := st.ifd_devices.set i e })
      ∧ r.rc = IFD_SUCCESS ∧ same_frame d e ∧ e.slot.initiated = d.slot.initiated)
    ∧ ((d.connected = false ∨ d.secure_element_as_card = false
          ∨ (d.slot.present = true ∧ d.slot.initiated = true)) →
        ∃ r : control_result,
          IFDHControl K env st Lun K.IFDNFC_CTRL_ACTIVE (some ⟨K.IFDNFC_GET_STATUS, cs⟩)
              K.sizeof_IFDNFC_CONTROL_REQ true K.sizeof_IFDNFC_CONTROL_RESP true
            = some (r, st)
          ∧ r.rc = IFD_SUCCESS) := by
  have hcmd : IFDHControl_command K env st.context d ⟨K.IFDNFC_GET_STATUS, cs⟩ = some d := by
    simp [IFDHControl_command, h1, h2, h3]
  have hres := IFDHControl_of_command K env st Lun i d d ⟨K.IFDNFC_GET_STATUS, cs⟩ hidx hd hcmd
  constructor
  · exact ⟨_, _, hres, rfl, (IFDHControl_se_frame env d).1, (IFDHControl_se_frame env d).2⟩
  · intro h
    rw [hres, IFDHControl_se_unchanged env d h, set_getElem?_self _ _ _ hd]
    exact ⟨_, rfl, rfl⟩

/-- C14, witness: GET_STATUS on the sample device, which is not in secure-element mode. -/
theorem C14_get_status_frame_witness :
    ∃ r : control_result,
      IFDHControl sample_h (sample_env 0 (sample_target []))
          (sample_driver (sample_device (sample_target []) true false)) 0
          sample_h.IFDNFC_CTRL_ACTIVE (some ⟨sample_h.IFDNFC_GET_STATUS, []⟩)
          sample_h.sizeof_IFDNFC_CONTROL_REQ true sample_h.sizeof_IFDNFC_CONTROL_RESP true
        = some (r, sample_driver (sample_device (sample_target []) true false))
      ∧ r.rc = IFD_SUCCESS :=
  (C14_get_status_frame sample_h (sample_env 0 (sample_target []))
    (sample_driver (sample_device (sample_target []) true false)) 0 0
    (sample_device (sample_target []) true false) [] (by decide) rfl
    (by decide) (by decide) (by decide)).2 (Or.inr (Or.inl rfl))

/-- On a device whose handle is NULL, `ifdnfc_nfc_open` with a string that contains ':'
stores that string in a block of `strlen` bytes when the allocation succeeds: the
terminating NUL that `strcpy` writes is outside the block. -/
theorem ifdnfc_nfc_open_copy_overruns (env : nfc_env) (k : Nat) (context : Option Nat)
    (d : ifd_device) (c : List Char) (hnull : d.device = none)
    (hcolon : strchr c ':' = true) (hmalloc : env.malloc = true) :
    (ifdnfc_nfc_open env k context d (some c)).2.ifd_connstring = some c
    ∧ (ifdnfc_nfc_open env k context d (some c)).2.ifd_connstring_size = c.length
    ∧ ¬ connstring_in_block (ifdnfc_nfc_open env k context d (some c)).2 := by
  have h12 : (ifdnfc_nfc_open env k context d (some c)).2.ifd_connstring = some c
      ∧ (ifdnfc_nfc_open env k context d (some c)).2.ifd_connstring_size = c.length := by
    unfold ifdnfc_nfc_open
    cases c with
    | nil => simp [strchr] at hcolon
    | cons x cs => simp [hnull, hcolon, hmalloc]
  refine ⟨h12.1, h12.2, ?_⟩
  unfold connstring_in_block
  rw [h12.1, h12.2]
  simp

end IfdNfc
